import Mathlib

/-! hive-fest: honey reward tiers, daily reset and its scheduler

A shallow embedding of the reward, daily-reset, scheduling, signup, question and
leaderboard logic of `src/api/server.js`, and of the answer check of
`src/api/public/questions.js`.

Modelling conventions.

* A value returned by `Math.random()` is a rational `u` with `0 ≤ u < 1`; the
  expression `Math.floor(Math.random() * n)` is `⌊u * n⌋` with the product taken
  exactly.  The handlers draw exactly once per request, so a handler takes a
  single `u`.  The concrete draws used below are dyadic, so their products with
  the small multipliers of the source are exact in double arithmetic too.
* `madridDateString()` reads the clock; the Madrid civil date it returns is the
  parameter `today` of every definition that calls it.
* The honey counters are JavaScript numbers that only ever hold non-negative
  integers (they start at `0` and grow by integer rewards); they are `Nat`.
* A field that the source inspects with `typeof` is a `JsVal`, so that a
  missing or ill-typed field of `users.json` is representable.
-/

namespace HiveFest

/-! ## Data model -/

/-- A JSON value as far as the `typeof` tests of the server distinguish it. -/
inductive JsVal where
  | undefined
  | null
  | bool (b : Bool)
  | num (n : Nat)
  | str (s : String)
  deriving DecidableEq, Repr

/-- Result of `typeof v === "number"`. -/
def JsVal.isNumber : JsVal → Bool
  | .num _ => true
  | _ => false

/-- Result of `typeof v === "string"`. -/
def JsVal.isString : JsVal → Bool
  | .str _ => true
  | _ => false

/-- The `stats` object of a user record. -/
structure Stats where
  bigPrizes : Nat
  greatPrizes : Nat
  goodPrizes : Nat
  played : Nat
  totalHoney : Nat
  deriving DecidableEq, Repr

/-- The `actualQuestion` object of a user record. -/
structure Question where
  type : String
  n1 : Nat
  n2 : Nat
  deriving DecidableEq, Repr

/-- A user record of `users.json`.  `todayHoney` and `lastDailyReset` are the
two fields the server tests with `typeof` before use. -/
structure User where
  username : String
  accountCreatedAt : String
  collection : List (String × Nat)
  honey : Nat
  favCharacImage : String
  stats : Stats
  actualQuestion : Question
  todayHoney : JsVal
  lastDailyReset : JsVal
  deriving DecidableEq, Repr

/-- The `users` object of `users.json`: user id ↦ record, in key order. -/
structure UsersDB where
  users : List (String × User)
  deriving DecidableEq, Repr

/-- The part of `req.session` the handlers read. -/
structure Session where
  userId : Option String
  username : Option String
  deriving DecidableEq, Repr

/-! ## Reward computation of `POST /api/add-honey` (server.js 533-562) -/

/-- `Math.floor(Math.random() * n)` for the draw `u`. -/
def floorRandom (u : ℚ) (n : Nat) : Nat := ⌊u * (n : ℚ)⌋₊

/-- The tier table applied to `randomWheel` (server.js 537-549). -/
def wheelReward (randomWheel : Nat) : Nat :=
  if randomWheel < 600 then 25
  else if randomWheel < 800 then 50
  else if randomWheel < 900 then 100
  else if randomWheel < 950 then 200
  else if randomWheel < 995 then 500
  else 1000

/-- The value of `finalRandomHoney` for `user.todayHoney = todayHoney` and the
draw `u` (server.js 533-562). -/
def finalRandomHoney (todayHoney : Nat) (u : ℚ) : Nat :=
  if todayHoney = 0 then wheelReward (floorRandom u 1000)
  else if todayHoney < 501 then floorRandom u 26 + 25
  else if todayHoney < 1001 then floorRandom u 11 + 10
  else if todayHoney < 2001 then floorRandom u 6 + 5
  else if todayHoney < 5001 then floorRandom u 5 + 1
  else if todayHoney < 7501 then floorRandom u 3
  else floorRandom u 2

/-- The rewards `/api/add-honey` can add for the before-value `d`, over all draws. -/
def attainableRewards (d : Nat) : Set Nat :=
  {r | ∃ u : ℚ, 0 ≤ u ∧ u < 1 ∧ finalRandomHoney d u = r}

/-- The largest value of each band of `finalRandomHoney`, band by band. -/
def bandCeiling (d : Nat) : Nat :=
  if d = 0 then 1000
  else if d < 501 then 50
  else if d < 1001 then 20
  else if d < 2001 then 10
  else if d < 5001 then 5
  else if d < 7501 then 2
  else 1

/-! ## Lazy daily correction (server.js 247-257) -/

/-- The function `ensureDailyFieldsAndResetIfNeeded(user)`; `today` is the value
of `madridDateString()` read inside it.  The source mutates `user` in place; the
model returns the record after the call. -/
def ensureDailyFieldsAndResetIfNeeded (today : String) (user : User) : User :=
  let user1 : User :=
    if user.todayHoney.isNumber = false then { user with todayHoney := JsVal.num 0 } else user
  if user1.lastDailyReset.isString = false then
    { user1 with lastDailyReset := JsVal.str today }
  else if user1.lastDailyReset ≠ JsVal.str today then
    { user1 with todayHoney := JsVal.num 0, lastDailyReset := JsVal.str today }
  else user1

/-! ## The users store -/

/-- The record stored under the key `id` of `usersDB.users`, `none` when the
object has no such key of its own. -/
def UsersDB.get (usersDB : UsersDB) (id : String) : Option User :=
  usersDB.users.lookup id

/-- The names of the properties that `usersDB.users`, a plain object, inherits
from `Object.prototype`.  For an `id` that is no key of the store but one of
these names, the expression `usersDB.users[id]` is not `undefined`: it is the
inherited function, or `Object.prototype` itself for `__proto__`, a truthy value
without any of the fields of a user record. -/
def objectPrototypeKeys : List String :=
  ["constructor", "__defineGetter__", "__defineSetter__", "hasOwnProperty",
   "__lookupGetter__", "__lookupSetter__", "isPrototypeOf", "propertyIsEnumerable",
   "toString", "valueOf", "__proto__", "toLocaleString"]

/-- The entries of the store after the record under key `id` was replaced by
`user` (the handlers mutate `usersDB.users[id]` in place and write the store). -/
def setUser : List (String × User) → String → User → List (String × User)
  | [], _, _ => []
  | (k, v) :: rest, id, user =>
    if k = id then (k, user) :: rest else (k, v) :: setUser rest id user

/-! ## `POST /api/add-honey` (server.js 520-577) -/

/-- The JSON answer of `/api/add-honey` with its HTTP status. -/
structure AddHoneyReply where
  status : Nat
  ok : Bool
  message : Option String
  added : Option Nat
  honey : Option Nat
  todayHoney : Option Nat
  totalHoney : Option Nat
  deriving DecidableEq, Repr

/-- An answer `{ ok: false, message }` with the given status. -/
def AddHoneyReply.failure (status : Nat) (message : String) : AddHoneyReply :=
  { status := status, ok := false, message := some message, added := none, honey := none,
    todayHoney := none, totalHoney := none }

/-- The handler of `POST /api/add-honey`: the users store after the request and
the answer.  `today` is the Madrid date read by the lazy correction and `u` the
value of the single `Math.random()` call.  The result is `none` only if
`todayHoney` is not a number after the correction of line 531, which
`ensureDaily_todayHoney_isNumber` excludes.

When `id` is no key of the store, `usersDB.users[id]` is `undefined` and the
answer is 404, unless `id` names an inherited property: then `user` is truthy,
the test of line 527 passes, the correction and the reward computation run on
the inherited object, and `user.stats.totalHoney += ...` (line 566) throws a
`TypeError` since `user.stats` is `undefined`.  The handler has no `try`, so
Express answers 500 without a JSON body (`ok` is `false` for want of `ok: true`)
and line 568 is not reached: the store is not written.  The properties set on
the inherited object before the throw stay in the process and are not part of
this model. -/
def addHoney (today : String) (u : ℚ) (session : Session) (usersDB : UsersDB) :
    Option (UsersDB × AddHoneyReply) :=
  match session.userId with
  | none => some (usersDB, AddHoneyReply.failure 401 "Not logged in")
  | some id =>
    if id = "" then some (usersDB, AddHoneyReply.failure 401 "Not logged in")
    else
      match usersDB.get id with
      | none =>
        if id ∈ objectPrototypeKeys then
          some (usersDB,
            { status := 500, ok := false, message := none, added := none, honey := none,
              todayHoney := none, totalHoney := none })
        else some (usersDB, AddHoneyReply.failure 404 "User not found")
      | some stored =>
        let user := ensureDailyFieldsAndResetIfNeeded today stored
        match user.todayHoney with
        | JsVal.num d =>
          let added := finalRandomHoney d u
          let user' : User :=
            { user with
              honey := user.honey + added
              todayHoney := JsVal.num (d + added)
              stats := { user.stats with totalHoney := user.stats.totalHoney + added } }
          some ({ users := setUser usersDB.users id user' },
            { status := 200, ok := true, message := none, added := some added,
              honey := some user'.honey, todayHoney := some (d + added),
              totalHoney := some user'.stats.totalHoney })
        | _ => none

/-! ## `GET /api/me` (server.js 500-506) -/

/-- The JSON answer of `/api/me` with its HTTP status; `profile` is `none` when
`usersDB.users[userId]` is no user record: `undefined`, an inherited function
(which `JSON.stringify` leaves out) or `Object.prototype`. -/
structure MeReply where
  status : Nat
  ok : Bool
  message : Option String
  userId : Option String
  profile : Option User
  deriving DecidableEq, Repr

/-- The handler of `GET /api/me`.  It reads the store and the session only: it
neither reads the clock nor writes the store. -/
def apiMe (session : Session) (usersDB : UsersDB) : MeReply :=
  match session.userId with
  | none =>
    { status := 401, ok := false, message := some "Not logged in", userId := none,
      profile := none }
  | some id =>
    if id = "" then
      { status := 401, ok := false, message := some "Not logged in", userId := none,
        profile := none }
    else
      { status := 200, ok := true, message := none, userId := some id,
        profile := usersDB.get id }

/-! ## `POST /api/login` (server.js 142-155, 445-497) -/

/-- A record of `auth.json`. -/
structure AuthRecord where
  usernameLower : String
  passwordHash : String
  registrationIP : String
  pwVersion : Nat
  lastLogin : Option String
  sessionId : Option String
  deriving DecidableEq, Repr

/-- The `auth` object of `auth.json`: user id ↦ record, in key order. -/
structure AuthDB where
  auth : List (String × AuthRecord)
  deriving DecidableEq, Repr

/-- The body of a login or signup request whose two fields are strings. -/
structure Credentials where
  username : String
  password : String
  deriving DecidableEq, Repr

/-- A character matched by the class `[a-zA-Z]`. -/
def isAsciiLetter (c : Char) : Bool :=
  (decide ('a' ≤ c) && decide (c ≤ 'z')) || (decide ('A' ≤ c) && decide (c ≤ 'Z'))

/-- Acceptance by `usernameSchema`: `z.string().min(2).max(20).regex(/^[a-zA-Z]+$/)`.
A string of ASCII letters has as many UTF-16 units as characters, so the length
bounds are on `String.length`. -/
def usernameSchema (s : String) : Bool :=
  decide (2 ≤ s.length) && decide (s.length ≤ 20) && s.toList.all isAsciiLetter

/-- Acceptance by `loginSchema`: a valid username and a non-empty password. -/
def loginSchema (body : Credentials) : Bool :=
  usernameSchema body.username && decide (1 ≤ body.password.length)

/-- The function `toLower`: trim, then lower-case, on the list of characters.
The handlers apply it to usernames accepted by `usernameSchema` only, that is to
strings of ASCII letters, on which JavaScript's `trim` and `toLowerCase` act as
their ASCII counterparts here. -/
def toLower (s : String) : String :=
  String.mk
    (((s.toList.dropWhile Char.isWhitespace).reverse.dropWhile Char.isWhitespace).reverse.map
      Char.toLower)

/-- The JSON answer of `/api/login` with its HTTP status. -/
structure LoginReply where
  status : Nat
  ok : Bool
  message : Option String
  profile : Option User
  deriving DecidableEq, Repr

/-- The handler of `POST /api/login`: the session and `auth.json` after the
request, and the answer.  `verify hash password` stands for
`argon2.verify(hash, password + PEPPER, argonOptions)`, `now` for `nowISO()` and
`sessionID` for `req.sessionID`.  The destruction of an older session touches
the session store only and is left out.  Reading `.username` of `undefined`, for
a `userId` without user record, throws, which the handler answers with status
500; when `userId` names an inherited property nothing throws: its `.username`
is `undefined` and the profile sent is no user record. -/
def apiLogin (verify : String → String → Bool) (now sessionID : String) (body : Credentials)
    (session : Session) (usersDB : UsersDB) (authDB : AuthDB) :
    Session × AuthDB × LoginReply :=
  if loginSchema body = false then
    (session, authDB,
      { status := 400, ok := false, message := some "Invalid credentials.", profile := none })
  else
    let unameLower := toLower body.username
    match authDB.auth.find? (fun e => e.2.usernameLower = unameLower) with
    | none =>
      (session, authDB,
        { status := 401, ok := false, message := some "Invalid credentials.", profile := none })
    | some (userId, authRecord) =>
      if verify authRecord.passwordHash body.password = false then
        (session, authDB,
          { status := 401, ok := false, message := some "Invalid credentials.",
            profile := none })
      else
        match usersDB.get userId with
        | none =>
          if userId ∈ objectPrototypeKeys then
            ({ userId := some userId, username := none },
              { auth := authDB.auth.map (fun e =>
                  if e.1 = userId then
                    (e.1, { e.2 with lastLogin := some now, sessionId := some sessionID })
                  else e) },
              { status := 200, ok := true, message := none, profile := none })
          else
            ({ session with userId := some userId }, authDB,
              { status := 500, ok := false, message := some "Server error.",
                profile := none })
        | some user =>
          ({ userId := some userId, username := some user.username },
            { auth := authDB.auth.map (fun e =>
                if e.1 = userId then
                  (e.1, { e.2 with lastLogin := some now, sessionId := some sessionID })
                else e) },
            { status := 200, ok := true, message := none, profile := some user })

/-! ## Global daily reset and start-up migration (server.js 198-213, 259-270) -/

/-- The outcome of a call that may throw. -/
inductive Outcome (α : Type) where
  | returned (value : α)
  | thrown (error : String)
  deriving DecidableEq, Repr

/-- The loop of `resetAllDailyHoney` (server.js 263-267) over the users of the
store read from disk: every record gets `todayHoney = 0` and
`lastDailyReset = today`. -/
def resetPass (today : String) (usersDB : UsersDB) : UsersDB :=
  { users := usersDB.users.map (fun e =>
      (e.1, { e.2 with todayHoney := JsVal.num 0, lastDailyReset := JsVal.str today })) }

/-- The function `resetAllDailyHoney()` on the content of `users.json`:
`usersFile` is `none` when the file cannot be read or parsed, in which case
`readUsersDB` throws; `writable = false` makes `writeUsersDB` throw.  The value
returned is the content of the file after the call. -/
def resetAllDailyHoney (today : String) (writable : Bool) (usersFile : Option UsersDB) :
    Outcome UsersDB :=
  match usersFile with
  | none => Outcome.thrown "readUsersDB"
  | some usersDB =>
    if writable then Outcome.returned (resetPass today usersDB)
    else Outcome.thrown "writeUsersDB"

/-- The body of the start-up migration loop for one user (server.js 205-209). -/
def migrateUser (today : String) (user : User) : User :=
  let user1 : User :=
    if user.todayHoney.isNumber = false then { user with todayHoney := JsVal.num 0 } else user
  let user2 : User :=
    if user1.lastDailyReset.isString = false then
      { user1 with lastDailyReset := JsVal.str today }
    else user1
  if user2.lastDailyReset ≠ JsVal.str today then
    { user2 with todayHoney := JsVal.num 0, lastDailyReset := JsVal.str today }
  else user2

/-! ## Madrid time (server.js 171-196, 215-245)

An instant is a number of milliseconds since the epoch, as `Date.getTime()`
gives it.  The time zone data behind `Intl.DateTimeFormat` is a function `tz`
from an instant to the offset of Europe/Madrid (local time minus UTC, in ms) in
force at it.  The civil date `{year, month, day}` of `madridParts` is
represented by its day number, the number of whole days of local time since
1970-01-01; `Date.UTC(year, month - 1, day + 1, 0, 0, 0, 0)` is then the start
of the day with the next day number, since `Date.UTC` carries a day past the end
of a month into the next month. -/

/-- Milliseconds in a day. -/
def msPerDay : Int := 86400000

/-- Milliseconds in an hour. -/
def msPerHour : Int := 3600000

/-- The day number of the civil date `madridParts(date)` reads in Madrid. -/
def madridDay (tz : Int → Int) (date : Int) : Int := (date + tz date) / msPerDay

/-- The function `timeZoneOffsetMs(MADRID_TZ, date)`: the local wall clock of
`date`, which the formatter prints to the second, re-read as a UTC instant,
minus `date`. -/
def timeZoneOffsetMs (tz : Int → Int) (date : Int) : Int :=
  let asUTC := (date + tz date) / 1000 * 1000
  asUTC - date

/-- The function `nextMadridMidnightUTCms(now)`. -/
def nextMadridMidnightUTCms (tz : Int → Int) (now : Int) : Int :=
  let guessUTC := (madridDay tz now + 1) * msPerDay
  let offsetAtTarget := timeZoneOffsetMs tz guessUTC
  let targetUTC := guessUTC - offsetAtTarget
  targetUTC

/-- The rule of Europe/Madrid assumed of the time zone data: the offset is
+1 h (CET) or +2 h (CEST), and it changes only at 01:00 UTC, that is, it is
constant from 01:00 UTC of a day up to 01:00 UTC of the next. -/
def ChangesAtOneUTC (tz : Int → Int) : Prop :=
  (∀ t, tz t = msPerHour ∨ tz t = 2 * msPerHour) ∧
  (∀ t, tz t = tz ((t - msPerHour) / msPerDay * msPerDay + msPerHour))

/-- The offsets of Europe/Madrid around 2025: CEST from 2025-03-30 01:00 UTC
(instant 1743296400000) to 2025-10-26 01:00 UTC (instant 1761440400000), CET
otherwise. -/
def madridOffset2025 (t : Int) : Int :=
  if 1743296400000 ≤ t ∧ t < 1761440400000 then 7200000 else 3600000

/-! ## The reset scheduler and the start-up sequence (server.js 272-283, 677-681) -/

/-- An armed one-shot timer of `setTimeout`. -/
structure Timer where
  armedAt : Int
  delay : Int
  deriving DecidableEq, Repr

/-- The state of the server process the scheduler acts on: the content of
`users.json` (`none` when unreadable) and the timer armed by
`scheduleDailyReset`, if any. -/
structure ServerState where
  usersFile : Option UsersDB
  pendingWake : Option Timer
  deriving DecidableEq, Repr

/-- The value of `delay` in `scheduleDailyReset` when `Date.now()` is `now`. -/
def scheduleDelay (tz : Int → Int) (now : Int) : Int :=
  max 0 (nextMadridMidnightUTCms tz now - now)

/-- The function `scheduleDailyReset()` called when `Date.now()` is `now`: it
arms the one-shot timer. -/
def scheduleDailyReset (tz : Int → Int) (now : Int) (state : ServerState) : ServerState :=
  { state with pendingWake := some { armedAt := now, delay := scheduleDelay tz now } }

/-- The callback of the timer (server.js 277-282), run when the timer fires at
instant `now` on Madrid date `today`: `resetAllDailyHoney()` followed by
`scheduleDailyReset()`.  The fired timer is no longer pending.  An exception
thrown by the first call leaves the callback, so the second call is not made. -/
def wake (tz : Int → Int) (now : Int) (today : String) (writable : Bool)
    (state : ServerState) : Outcome ServerState :=
  match resetAllDailyHoney today writable state.usersFile with
  | Outcome.thrown e => Outcome.thrown e
  | Outcome.returned usersDB =>
    Outcome.returned
      (scheduleDailyReset tz now { usersFile := some usersDB, pendingWake := none })

/-- The state of the process after a wake: the callback's result when it
returns; when it throws, the state before it with the fired timer gone (the
exception is uncaught, and nothing in the callback ran after the throw). -/
def stateAfterWake (tz : Int → Int) (now : Int) (today : String) (writable : Bool)
    (state : ServerState) : ServerState :=
  match wake tz now today writable state with
  | Outcome.returned state' => state'
  | Outcome.thrown _ => { state with pendingWake := none }

/-- The start-up sequence of `server.js`, its top-level statements in order, as
far as it touches `users.json` and the timers: the migration of lines 199-213
rewrites the users, and `app.listen` (lines 677-681) only logs.  No top-level
statement calls `scheduleDailyReset`. -/
def startup (today : String) (usersDB : UsersDB) : ServerState :=
  { usersFile := some { users := usersDB.users.map (fun e => (e.1, migrateUser today e.2)) },
    pendingWake := none }

/-! ## `generateUniqueId` (server.js 305-328) -/

/-- The number a list of decimal digits denotes. -/
def digitsValue (cs : List Char) : Nat :=
  cs.foldl (fun n c => 10 * n + (c.toNat - 48)) 0

/-- `Number(key)` for a key that is a non-empty string of decimal digits; `none`
for any other key, on which the model of `generateUniqueId` is not defined. -/
def jsNumber (key : String) : Option Nat :=
  if key.toList ≠ [] ∧ key.toList.all Char.isDigit = true then some (digitsValue key.toList)
  else none

/-- The list `Object.keys(usersDB.users).map(Number)`, `none` if some key is not
a string of decimal digits.  The numbers are exact; `generateUniqueId` uses
them only where `Number` is exact. -/
def userIds (usersDB : UsersDB) : Option (List Nat) :=
  usersDB.users.foldr (fun e acc =>
    match jsNumber e.1, acc with
    | some n, some ids => some (n :: ids)
    | _, _ => none) (some [])

/-- `Math.round(Math.pow(x, 1.25))` for a natural `x`: the natural number
nearest to `x ^ (5/4)`, which is the least `m` with `x ^ (5/4) < m + 1/2`, that
is with `16 * x ^ 5 < (2 * m + 1) ^ 4`.  A tie cannot occur, the left side being
even and the right side odd; for the arguments `5, 10, ..., 105` the source can
pass, `x ^ (5/4)` is at least 0.01 away from a tie. -/
def roundPow125 (x : Nat) : Nat :=
  ((List.range (x * x + 2)).find? (fun m => decide (16 * x ^ 5 < (2 * m + 1) ^ 4))).getD 0

/-- The double nearest to the natural number `n`, for `n < 2 ^ 54`: every
natural number up to `2 ^ 53` is a double, and from there to `2 ^ 54` the doubles
are the even numbers, an odd `n` going to the neighbour that is a multiple of 4
(round half to even). -/
def roundToDouble (n : Nat) : Nat :=
  if n ≤ 2 ^ 53 then n
  else if n % 2 = 0 then n
  else if n % 4 = 1 then n - 1
  else n + 1

/-- The function `generateUniqueId(usersDB)` for the draw `u`.  The ids are
doubles.  Up to `lastId = 2 ^ 53` every key is converted exactly by `Number`,
`String(lastId)` is the decimal numeral `Nat.repr lastId`, and `lastId +
increment`, which stays below `2 ^ 54`, is rounded to a double, whose `String`
is again its decimal numeral.  The result is `none`, not modelled, for a larger
`lastId` (and for a key that is no string of digits). -/
def generateUniqueId (usersDB : UsersDB) (u : ℚ) : Option String :=
  match userIds usersDB with
  | none => none
  | some ids =>
    if ids.length = 0 then some "1"
    else
      let lastId := ids.foldl max 0
      if 2 ^ 53 < lastId then none
      else
        let length := (Nat.repr lastId).length
        let maxIncrement := roundPow125 (length * 5)
        let increment := floorRandom u maxIncrement + 1
        let newId := roundToDouble (lastId + increment)
        some (Nat.repr newId)

/-! ## `POST /api/signup` (server.js 142-151, 295-303, 343-442) -/

/-- The number of UTF-16 code units of a string, its JavaScript `length`. -/
def utf16Length (s : String) : Nat :=
  (s.toList.map (fun c => if c.toNat < 65536 then 1 else 2)).sum

/-- Acceptance by `passwordSchema`: `z.string().min(3).max(28)`. -/
def passwordSchema (s : String) : Bool :=
  decide (3 ≤ utf16Length s) && decide (utf16Length s ≤ 28)

/-- Acceptance by `signupSchema`. -/
def signupSchema (body : Credentials) : Bool :=
  usernameSchema body.username && passwordSchema body.password

/-- The content of `ip_whitelist.json`. -/
structure Whitelist where
  multiAllowed : List String
  deriving DecidableEq, Repr

/-- The function `findAuthByUsernameLower(authDB, unameLower)`. -/
def findAuthByUsernameLower (authDB : AuthDB) (unameLower : String) :
    Option (String × AuthRecord) :=
  authDB.auth.find? (fun e => e.2.usernameLower = unameLower)

/-- The question generated by signup (server.js 376-403) from the draws of its
`Math.random()` calls in order: `uType` for `typeN`, then `uA` and `uB`. -/
def signupQuestion (uType uA uB : ℚ) : Question :=
  let typeN := floorRandom uType 4
  if typeN = 0 then
    { type := "sum", n1 := floorRandom uA 100 + 1, n2 := floorRandom uB 100 + 1 }
  else if typeN = 1 then
    let n1 := floorRandom uA 100 + 1
    let n2 := floorRandom uB 100 + 1
    if n1 < n2 then
      let _a := n2
      let n2' := n1
      let n1' := n2'
      { type := "subtraction", n1 := n1', n2 := n2' }
    else { type := "subtraction", n1 := n1, n2 := n2 }
  else if typeN = 2 then
    { type := "multiplication", n1 := floorRandom uA 11 + 1, n2 := floorRandom uB 11 + 1 }
  else
    let n2 := floorRandom uA 11 + 1
    let n1 := (floorRandom uB 11 + 1) * n2
    { type := "division", n1 := n1, n2 := n2 }

/-- The store entries after the assignment `users[id] = user`: the record under
an existing key is replaced, a new key is added after the others. -/
def putUser : List (String × User) → String → User → List (String × User)
  | [], id, user => [(id, user)]
  | (k, v) :: rest, id, user =>
    if k = id then (k, user) :: rest else (k, v) :: putUser rest id user

/-- The entries of `auth.json` after the assignment `auth[id] = record`. -/
def putAuth : List (String × AuthRecord) → String → AuthRecord → List (String × AuthRecord)
  | [], id, record => [(id, record)]
  | (k, v) :: rest, id, record =>
    if k = id then (k, record) :: rest else (k, v) :: putAuth rest id record

/-- The JSON answer of `/api/signup` with its HTTP status. -/
structure SignupReply where
  status : Nat
  ok : Bool
  message : Option String
  deriving DecidableEq, Repr

/-- The user record signup stores (server.js 406-424). -/
def signupRecord (username now : String) (question : Question) : User :=
  { username := username
    accountCreatedAt := now
    collection := []
    honey := 0
    favCharacImage := "./assets/HiveFest.png"
    stats := { bigPrizes := 0, greatPrizes := 0, goodPrizes := 0, played := 0, totalHoney := 0 }
    actualQuestion := question
    todayHoney := JsVal.undefined
    lastDailyReset := JsVal.undefined }

/-- The handler of `POST /api/signup`: `users.json` and `auth.json` after the
request, and the answer.  `hash password` stands for
`argon2.hash(password + PEPPER, argonOptions)`, `now` for `nowISO()`, `clientIP`
for `getClientIP(req)`; `uType`, `uA`, `uB` are the draws of the question and
`uId` the draw of `generateUniqueId`.  The result is `none` only where
`generateUniqueId` is not modelled. -/
def apiSignup (hash : String → String) (now clientIP : String) (whitelist : Whitelist)
    (uType uA uB uId : ℚ) (body : Credentials) (usersDB : UsersDB) (authDB : AuthDB) :
    Option (UsersDB × AuthDB × SignupReply) :=
  if signupSchema body = false then
    some (usersDB, authDB,
      { status := 400, ok := false,
        message := some "Neither symbols and spaces are permitted (except _ and -)" })
  else
    let unameLower := toLower body.username
    if whitelist.multiAllowed.contains clientIP = false ∧
        authDB.auth.any (fun e => decide (e.2.registrationIP = clientIP)) = true then
      some (usersDB, authDB,
        { status := 409, ok := false, message := some "You already have an account" })
    else if (findAuthByUsernameLower authDB unameLower).isSome = true then
      some (usersDB, authDB,
        { status := 409, ok := false, message := some "This username already exists" })
    else
      let passwordHash := hash body.password
      let question := signupQuestion uType uA uB
      match generateUniqueId usersDB uId with
      | none => none
      | some userId =>
        some ({ users := putUser usersDB.users userId (signupRecord body.username now question) },
          { auth := putAuth authDB.auth userId
              { usernameLower := unameLower, passwordHash := passwordHash,
                registrationIP := clientIP, pwVersion := 1, lastLogin := none,
                sessionId := none } },
          { status := 201, ok := true, message := none })

/-! ## `POST /api/change-question` (server.js 579-617) and the client's answer
check (public/questions.js 118-127) -/

/-- The question generated by change-question (server.js 591-611) from the draws
of its `Math.random()` calls in order: `uType` for `typeN`, then `uA` and `uB`. -/
def changeQuestion (uType uA uB : ℚ) : Question :=
  let typeN := floorRandom uType 4
  if typeN = 0 then
    { type := "sum", n1 := floorRandom uA 100 + 1, n2 := floorRandom uB 100 + 1 }
  else if typeN = 1 then
    let n1 := floorRandom uA 100 + 1
    let n2 := floorRandom uB 100 + 1
    if n1 < n2 then { type := "subtraction", n1 := n2, n2 := n1 }
    else { type := "subtraction", n1 := n1, n2 := n2 }
  else if typeN = 2 then
    { type := "multiplication", n1 := floorRandom uA 11 + 1, n2 := floorRandom uB 11 + 1 }
  else
    let n2 := floorRandom uA 11 + 1
    let n1 := (floorRandom uB 11 + 1) * n2
    { type := "division", n1 := n1, n2 := n2 }

/-- The JSON answer of `/api/change-question` with its HTTP status. -/
structure ChangeQuestionReply where
  status : Nat
  ok : Bool
  message : Option String
  question : Option Question
  deriving DecidableEq, Repr

/-- The handler of `POST /api/change-question`: the users store after the
request and the answer.  When `id` is no key of the store but names an inherited
property, the question is assigned to the inherited object, which is no part of
what `writeUsersDB` writes, and is sent back. -/
def apiChangeQuestion (uType uA uB : ℚ) (session : Session) (usersDB : UsersDB) :
    UsersDB × ChangeQuestionReply :=
  match session.userId with
  | none =>
    (usersDB, { status := 401, ok := false, message := some "Not logged in", question := none })
  | some id =>
    if id = "" then
      (usersDB,
        { status := 401, ok := false, message := some "Not logged in", question := none })
    else
      match usersDB.get id with
      | none =>
        if id ∈ objectPrototypeKeys then
          (usersDB,
            { status := 200, ok := true, message := none,
              question := some (changeQuestion uType uA uB) })
        else
          (usersDB,
            { status := 404, ok := false, message := some "User not found",
              question := none })
      | some user =>
        let question := changeQuestion uType uA uB
        ({ users := setUser usersDB.users id { user with actualQuestion := question } },
          { status := 200, ok := true, message := none, question := some question })

/-- The value of `solution` the client computes for the current question
(public/questions.js 118-127).  In the last branch `Math.trunc(n1 / n2)` is the
quotient of the natural numbers `n1` and `n2` rounded down; for `n2 = 0` the
division gives `Infinity` or `NaN`, for which the result is `none`. -/
def clientSolution (question : Question) : Option Int :=
  if question.type = "sum" then some ((question.n1 : Int) + question.n2)
  else if question.type = "subtraction" then some ((question.n1 : Int) - question.n2)
  else if question.type = "multiplication" then some ((question.n1 : Int) * question.n2)
  else if question.n2 = 0 then none
  else some ((question.n1 / question.n2 : Nat) : Int)

/-! ## `GET /api/leaderboard` (server.js 619-668) -/

/-- An element of `items`. -/
structure LeaderboardItem where
  username : String
  avatar : String
  value : Nat
  deriving DecidableEq, Repr

/-- The JSON answer of `/api/leaderboard` with its HTTP status. -/
structure LeaderboardReply where
  status : Nat
  ok : Bool
  message : Option String
  metric : Option String
  items : Option (List LeaderboardItem)
  deriving DecidableEq, Repr

/-- The method `toLowerCase` on the characters A-Z.  A string with another
character that `toLowerCase` changes is none of the four metric names before or
after the change, so the metric test below decides as the source does. -/
def asciiLower (s : String) : String := String.mk (s.toList.map Char.toLower)

/-- The set `ALLOWED`. -/
def allowedMetrics : List String := ["honey", "totalhoney", "uniquehivees", "totalhivees"]

/-- The function `compute(user)` for the accepted metric `metricRaw`. -/
def computeMetric (metricRaw : String) (user : User) : Nat :=
  if metricRaw = "honey" then user.honey
  else if metricRaw = "totalhoney" then user.stats.totalHoney
  else if metricRaw = "uniquehivees" then
    user.collection.foldl (fun uniq e => if 0 < e.2 then uniq + 1 else uniq) 0
  else user.collection.foldl (fun sum e => sum + e.2) 0

/-- The array `items` after the loop over the users (server.js 651-658). -/
def leaderboardItems (metricRaw : String) (usersDB : UsersDB) : List LeaderboardItem :=
  usersDB.users.map (fun e =>
    { username := e.2.username
      avatar := if e.2.favCharacImage = "" then "./assets/HiveFest.png" else e.2.favCharacImage
      value := computeMetric metricRaw e.2 })

/-- The order `items.sort((a, b) => b.value - a.value)` puts `a` before `b` in. -/
def rankedBefore (a b : LeaderboardItem) : Prop := b.value ≤ a.value

instance : DecidableRel rankedBefore := fun a b => Nat.decLe b.value a.value

/-- The handler of `GET /api/leaderboard`; `metric` is `req.query.metric`,
`none` when the parameter is absent.  `Array.prototype.sort` is stable, as is the
insertion sort used here, which puts an item before the first item it is ranked
before. -/
def apiLeaderboard (session : Session) (metric : Option String) (usersDB : UsersDB) :
    LeaderboardReply :=
  match session.userId with
  | none =>
    { status := 401, ok := false, message := some "Not logged in", metric := none,
      items := none }
  | some id =>
    if id = "" then
      { status := 401, ok := false, message := some "Not logged in", metric := none,
        items := none }
    else
      let metricRaw := asciiLower (metric.getD "")
      if metricRaw ∉ allowedMetrics then
        { status := 400, ok := false, message := some "Unknown metric", metric := none,
          items := none }
      else
        let items := leaderboardItems metricRaw usersDB
        let sorted := items.insertionSort rankedBefore
        let top := sorted.take 10
        { status := 200, ok := true, message := none, metric := some metricRaw,
          items := some top }

/-! ## Fixtures -/

/-- A record as signup writes it, with daily fields set to `todayHoney` and
`lastDailyReset`. -/
def sampleUser (honey totalHoney : Nat) (todayHoney lastDailyReset : JsVal) : User :=
  { username := "bee", accountCreatedAt := "2025-01-01T08:00:00.000Z", collection := [],
    honey := honey, favCharacImage := "./assets/HiveFest.png",
    stats := { bigPrizes := 0, greatPrizes := 0, goodPrizes := 0, played := 0,
               totalHoney := totalHoney },
    actualQuestion := { type := "sum", n1 := 3, n2 := 4 },
    todayHoney := todayHoney, lastDailyReset := lastDailyReset }

/-- A user who earned 8000 honey on 2025-01-01 and was not touched since. -/
def staleUser : User := sampleUser 9000 9000 (JsVal.num 8000) (JsVal.str "2025-01-01")

/-- A user who has earned 8000 honey on 2025-01-02. -/
def freshUser : User := sampleUser 9000 9000 (JsVal.num 8000) (JsVal.str "2025-01-02")

/-- Three users, all last reset on 2025-01-01. -/
def threeStaleUsers : UsersDB :=
  { users := [("1", staleUser), ("2", staleUser), ("3", staleUser)] }

/-- A user record with the given name, honey, lifetime total and collection. -/
def rankedUser (username : String) (honey totalHoney : Nat) (collection : List (String × Nat)) :
    User :=
  { username := username, accountCreatedAt := "2025-01-01T08:00:00.000Z",
    collection := collection, honey := honey, favCharacImage := "",
    stats := { bigPrizes := 0, greatPrizes := 0, goodPrizes := 0, played := 0,
               totalHoney := totalHoney },
    actualQuestion := { type := "sum", n1 := 3, n2 := 4 },
    todayHoney := JsVal.num 0, lastDailyReset := JsVal.str "2025-01-02" }

/-- Twelve users with different honey and lifetime totals. -/
def twelveUsers : UsersDB :=
  { users :=
      [("1", rankedUser "ada" 5 900 [("queen", 2), ("drone", 0), ("worker", 3)]),
       ("2", rankedUser "bob" 120 800 []),
       ("3", rankedUser "cyd" 30 700 [("queen", 1)]),
       ("4", rankedUser "dee" 77 600 []),
       ("5", rankedUser "eve" 1 500 []),
       ("6", rankedUser "fay" 300 400 []),
       ("7", rankedUser "gus" 42 300 []),
       ("8", rankedUser "hal" 9 200 []),
       ("9", rankedUser "ivy" 250 100 []),
       ("10", rankedUser "jon" 61 50 []),
       ("11", rankedUser "kim" 18 25 []),
       ("12", rankedUser "lee" 99 10 [])] }

/-- The session of the logged-in user with id `"1"`. -/
def sampleSession : Session := { userId := some "1", username := some "bee" }

/-- An `auth.json` holding the credentials of user `"1"`. -/
def sampleAuthDB : AuthDB :=
  { auth := [("1", { usernameLower := "bee", passwordHash := "hash", registrationIP := "10.0.0.1",
                     pwVersion := 1, lastLogin := none, sessionId := none })] }

/-! ## Helper lemmas on draws -/

theorem floorRandom_lt (u : ℚ) (h0 : 0 ≤ u) (h1 : u < 1) (n : Nat) (hn : 0 < n) :
    floorRandom u n < n := by
  unfold floorRandom
  have hn' : (0 : ℚ) < n := by exact_mod_cast hn
  rw [Nat.floor_lt (mul_nonneg h0 hn'.le)]
  calc u * (n : ℚ) < 1 * n := by exact mul_lt_mul_of_pos_right h1 hn'
    _ = n := one_mul _

theorem floorRandom_of_div (k n : Nat) (hn : 0 < n) :
    floorRandom ((k : ℚ) / n) n = k := by
  unfold floorRandom
  have hn' : (n : ℚ) ≠ 0 := by exact_mod_cast hn.ne'
  rw [div_mul_cancel₀ _ hn']
  exact Nat.floor_natCast k

theorem floorRandom_eq (u : ℚ) (n k : Nat) (h0 : 0 ≤ u) (hlo : (k : ℚ) ≤ u * n)
    (hhi : u * n < k + 1) : floorRandom u n = k := by
  unfold floorRandom
  have hn : (0 : ℚ) ≤ u * n := mul_nonneg h0 (Nat.cast_nonneg n)
  exact (Nat.floor_eq_iff hn).2 ⟨hlo, hhi⟩

theorem finalRandomHoney_le_bandCeiling (d : Nat) (u : ℚ) (h0 : 0 ≤ u) (h1 : u < 1) :
    finalRandomHoney d u ≤ bandCeiling d := by
  have h26 := floorRandom_lt u h0 h1 26 (by norm_num)
  have h11 := floorRandom_lt u h0 h1 11 (by norm_num)
  have h6 := floorRandom_lt u h0 h1 6 (by norm_num)
  have h5 := floorRandom_lt u h0 h1 5 (by norm_num)
  have h3 := floorRandom_lt u h0 h1 3 (by norm_num)
  have h2 := floorRandom_lt u h0 h1 2 (by norm_num)
  unfold finalRandomHoney bandCeiling wheelReward
  split_ifs <;> omega

theorem bandCeiling_attained (d : Nat) :
    ∃ u : ℚ, 0 ≤ u ∧ u < 1 ∧ finalRandomHoney d u = bandCeiling d := by
  have key : ∀ k n : Nat, 0 < n → k < n →
      (0 : ℚ) ≤ (k : ℚ) / n ∧ (k : ℚ) / n < 1 ∧ floorRandom ((k : ℚ) / n) n = k := by
    intro k n hn hk
    have hn' : (0 : ℚ) < n := by exact_mod_cast hn
    refine ⟨div_nonneg (Nat.cast_nonneg k) hn'.le, ?_, floorRandom_of_div k n hn⟩
    rw [div_lt_one hn']
    exact_mod_cast hk
  unfold finalRandomHoney bandCeiling
  split_ifs
  · obtain ⟨a, b, c⟩ := key 999 1000 (by norm_num) (by norm_num)
    exact ⟨_, a, b, by rw [c]; simp [wheelReward]⟩
  · obtain ⟨a, b, c⟩ := key 25 26 (by norm_num) (by norm_num)
    exact ⟨_, a, b, by rw [c]⟩
  · obtain ⟨a, b, c⟩ := key 10 11 (by norm_num) (by norm_num)
    exact ⟨_, a, b, by rw [c]⟩
  · obtain ⟨a, b, c⟩ := key 5 6 (by norm_num) (by norm_num)
    exact ⟨_, a, b, by rw [c]⟩
  · obtain ⟨a, b, c⟩ := key 4 5 (by norm_num) (by norm_num)
    exact ⟨_, a, b, by rw [c]⟩
  · obtain ⟨a, b, c⟩ := key 2 3 (by norm_num) (by norm_num)
    exact ⟨_, a, b, by rw [c]⟩
  · obtain ⟨a, b, c⟩ := key 1 2 (by norm_num) (by norm_num)
    exact ⟨_, a, b, by rw [c]⟩

theorem isGreatest_bandCeiling (d : Nat) : IsGreatest (attainableRewards d) (bandCeiling d) := by
  constructor
  · exact bandCeiling_attained d
  · rintro r ⟨u, h0, h1, rfl⟩
    exact finalRandomHoney_le_bandCeiling d u h0 h1

theorem bandCeiling_antitone (d1 d2 : Nat) (h : d1 ≤ d2) : bandCeiling d2 ≤ bandCeiling d1 := by
  unfold bandCeiling
  split_ifs <;> omega

/-! ## Helper lemmas on the lazy correction and the store -/

theorem ensureDaily_lastDailyReset (today : String) (user : User) :
    (ensureDailyFieldsAndResetIfNeeded today user).lastDailyReset = JsVal.str today := by
  obtain ⟨un, ca, co, ho, fa, st, aq, th, lr⟩ := user
  cases th <;> cases lr <;>
    simp [ensureDailyFieldsAndResetIfNeeded, JsVal.isNumber, JsVal.isString] <;>
    split_ifs <;> simp_all

theorem ensureDaily_todayHoney_isNumber (today : String) (user : User) :
    ∃ d, (ensureDailyFieldsAndResetIfNeeded today user).todayHoney = JsVal.num d := by
  obtain ⟨un, ca, co, ho, fa, st, aq, th, lr⟩ := user
  cases th <;> cases lr <;>
    simp [ensureDailyFieldsAndResetIfNeeded, JsVal.isNumber, JsVal.isString] <;>
    split_ifs <;> simp_all

theorem ensureDaily_fresh (today : String) (user : User)
    (hd : user.lastDailyReset = JsVal.str today) (hn : user.todayHoney.isNumber = true) :
    ensureDailyFieldsAndResetIfNeeded today user = user := by
  simp [ensureDailyFieldsAndResetIfNeeded, hd, hn, JsVal.isString]

theorem ensureDaily_other_fields (today : String) (user : User) :
    (ensureDailyFieldsAndResetIfNeeded today user).honey = user.honey ∧
    (ensureDailyFieldsAndResetIfNeeded today user).stats = user.stats := by
  unfold ensureDailyFieldsAndResetIfNeeded
  constructor <;> (dsimp only; split_ifs <;> rfl)

theorem lookup_setUser_self (l : List (String × User)) (id : String) (v user : User)
    (h : l.lookup id = some v) : (setUser l id user).lookup id = some user := by
  induction l with
  | nil => simp at h
  | cons e rest ih =>
    obtain ⟨k, w⟩ := e
    by_cases hk : k = id
    · subst hk
      simp [setUser, List.lookup]
    · have hk' : (id == k) = false := by
        simpa using fun h' => hk h'.symm
      simp only [List.lookup, hk'] at h
      simp only [setUser, if_neg hk, List.lookup, hk']
      exact ih h

/-! ## Helper lemmas on store updates -/

theorem lookup_putUser_self (l : List (String × User)) (id : String) (user : User) :
    (putUser l id user).lookup id = some user := by
  induction l with
  | nil => simp [putUser, List.lookup]
  | cons e rest ih =>
    obtain ⟨k, w⟩ := e
    by_cases hk : k = id
    · subst hk
      simp [putUser, List.lookup]
    · have hk' : (id == k) = false := by
        simpa using fun h' => hk h'.symm
      simp only [putUser, if_neg hk, List.lookup, hk']
      exact ih

theorem lookup_map_snd (f : User → User) (l : List (String × User)) (id : String) :
    (l.map (fun e => (e.1, f e.2))).lookup id = (l.lookup id).map f := by
  induction l with
  | nil => rfl
  | cons e rest ih =>
    obtain ⟨k, w⟩ := e
    simp only [List.map, List.lookup]
    cases (id == k) <;> simp [ih]

theorem lookup_setUser_other (l : List (String × User)) (id other : String) (user : User)
    (h : other ≠ id) : (setUser l id user).lookup other = l.lookup other := by
  induction l with
  | nil => rfl
  | cons e rest ih =>
    obtain ⟨k, w⟩ := e
    by_cases hk : k = id
    · subst hk
      have hk' : (other == k) = false := by simpa using h
      simp [setUser, List.lookup, hk']
    · simp only [setUser, if_neg hk, List.lookup]
      cases (other == k) <;> simp [ih]

theorem resetPass_get (today : String) (usersDB : UsersDB) (id : String) :
    (resetPass today usersDB).get id = (usersDB.get id).map (fun user =>
      { user with todayHoney := JsVal.num 0, lastDailyReset := JsVal.str today }) := by
  unfold resetPass UsersDB.get
  exact lookup_map_snd (fun user =>
    { user with todayHoney := JsVal.num 0, lastDailyReset := JsVal.str today }) usersDB.users id

/-! ## Helper lemmas on Madrid time and on `/api/add-honey` -/

theorem madridOffset2025_rule : ChangesAtOneUTC madridOffset2025 := by
  constructor
  · intro t
    simp only [madridOffset2025, msPerHour]
    split_ifs <;> simp
  · intro t
    simp only [madridOffset2025, msPerHour, msPerDay]
    split_ifs <;> omega

theorem addHoney_found (today : String) (u : ℚ) (session : Session) (usersDB : UsersDB)
    (id : String) (stored : User) (d : Nat)
    (hid : session.userId = some id) (hne : id ≠ "") (hget : usersDB.get id = some stored)
    (hd : (ensureDailyFieldsAndResetIfNeeded today stored).todayHoney = JsVal.num d) :
    addHoney today u session usersDB
      = some ({ users := setUser usersDB.users id
                  { ensureDailyFieldsAndResetIfNeeded today stored with
                    honey := (ensureDailyFieldsAndResetIfNeeded today stored).honey
                      + finalRandomHoney d u
                    todayHoney := JsVal.num (d + finalRandomHoney d u)
                    stats := { (ensureDailyFieldsAndResetIfNeeded today stored).stats with
                      totalHoney := (ensureDailyFieldsAndResetIfNeeded today stored).stats.totalHoney
                        + finalRandomHoney d u } } },
               { status := 200, ok := true, message := none,
                 added := some (finalRandomHoney d u),
                 honey := some ((ensureDailyFieldsAndResetIfNeeded today stored).honey
                   + finalRandomHoney d u),
                 todayHoney := some (d + finalRandomHoney d u),
                 totalHoney := some
                   ((ensureDailyFieldsAndResetIfNeeded today stored).stats.totalHoney
                     + finalRandomHoney d u) }) := by
  simp only [addHoney, hid, if_neg hne, hget, hd]

/-! ## Helper lemmas on the fixtures -/

theorem ensureDaily_freshUser :
    (ensureDailyFieldsAndResetIfNeeded "2025-01-02" freshUser).todayHoney = JsVal.num 8000 := by
  rw [ensureDaily_fresh "2025-01-02" freshUser rfl rfl]
  rfl

theorem ensureDaily_staleUser :
    (ensureDailyFieldsAndResetIfNeeded "2025-01-02" staleUser).todayHoney = JsVal.num 0 := by
  decide

/-! ## Helper lemmas on questions and the leaderboard -/

theorem ensureDaily_stale (today s : String) (user : User)
    (hs : user.lastDailyReset = JsVal.str s) (hne : s ≠ today) :
    (ensureDailyFieldsAndResetIfNeeded today user).todayHoney = JsVal.num 0 := by
  have hne' : JsVal.str s ≠ JsVal.str today := fun h => hne (JsVal.str.inj h)
  unfold ensureDailyFieldsAndResetIfNeeded
  dsimp only
  split_ifs <;> simp_all [JsVal.isString]

theorem wheelReward_mem (w : Nat) : wheelReward w ∈ [25, 50, 100, 200, 500, 1000] := by
  unfold wheelReward
  split_ifs <;> simp

theorem rankedBefore_sorted_insertionSort (l : List LeaderboardItem) :
    (l.insertionSort rankedBefore).Sorted rankedBefore := by
  haveI : IsTotal LeaderboardItem rankedBefore := ⟨fun a b => Nat.le_total b.value a.value⟩
  haveI : IsTrans LeaderboardItem rankedBefore :=
    ⟨fun a b c hab hbc => Nat.le_trans hbc hab⟩
  exact List.sorted_insertionSort rankedBefore l

theorem question_type_ne :
    "sum" ≠ "division" ∧ "subtraction" ≠ "division" ∧ "multiplication" ≠ "division" := by
  decide

theorem signupQuestion_division (uType uA uB : ℚ)
    (h : (signupQuestion uType uA uB).type = "division") :
    signupQuestion uType uA uB
      = { type := "division", n1 := (floorRandom uB 11 + 1) * (floorRandom uA 11 + 1),
          n2 := floorRandom uA 11 + 1 } := by
  obtain ⟨h1, h2, h3⟩ := question_type_ne
  unfold signupQuestion at h ⊢
  dsimp only at h ⊢
  split_ifs at h ⊢ <;> first | rfl | exact absurd h h1 | exact absurd h h2 | exact absurd h h3

theorem changeQuestion_division (uType uA uB : ℚ)
    (h : (changeQuestion uType uA uB).type = "division") :
    changeQuestion uType uA uB
      = { type := "division", n1 := (floorRandom uB 11 + 1) * (floorRandom uA 11 + 1),
          n2 := floorRandom uA 11 + 1 } := by
  obtain ⟨h1, h2, h3⟩ := question_type_ne
  unfold changeQuestion at h ⊢
  dsimp only at h ⊢
  split_ifs at h ⊢ <;> first | rfl | exact absurd h h1 | exact absurd h h2 | exact absurd h h3

theorem clientSolution_division (k n2 : Nat) (hn : 0 < n2) :
    clientSolution { type := "division", n1 := k * n2, n2 := n2 } = some (k : Int) := by
  have h1 : ¬ ("division" = "sum") := by decide
  have h2 : ¬ ("division" = "subtraction") := by decide
  have h3 : ¬ ("division" = "multiplication") := by decide
  simp only [clientSolution, if_neg h1, if_neg h2, if_neg h3, if_neg hn.ne',
    Nat.mul_div_cancel k hn]

/-! ## Helper lemmas on the handlers' found and missing paths -/

theorem addHoney_unknown_user (today : String) (u : ℚ) (session : Session)
    (usersDB : UsersDB) (id : String) (hid : session.userId = some id) (hne : id ≠ "")
    (hget : usersDB.get id = none) (hown : id ∉ objectPrototypeKeys) :
    addHoney today u session usersDB
      = some (usersDB, AddHoneyReply.failure 404 "User not found") := by
  simp only [addHoney, hid, if_neg hne, hget, if_neg hown]

theorem apiSignup_stored (hash : String → String) (now clientIP : String)
    (whitelist : Whitelist) (uType uA uB uId : ℚ) (body : Credentials) (usersDB : UsersDB)
    (authDB : AuthDB) (usersDB' : UsersDB) (authDB' : AuthDB) (reply : SignupReply)
    (hrun : apiSignup hash now clientIP whitelist uType uA uB uId body usersDB authDB
      = some (usersDB', authDB', reply))
    (hok : reply.ok = true) :
    ∃ userId, generateUniqueId usersDB uId = some userId ∧
      usersDB'.get userId = some (signupRecord body.username now (signupQuestion uType uA uB)) := by
  unfold apiSignup at hrun
  have hfail : ∀ (x : UsersDB) (y : AuthDB) (status : Nat) (message : Option String),
      some (x, y, ({ status := status, ok := false, message := message } : SignupReply))
        = some (usersDB', authDB', reply) → False := by
    intro x y status message h
    simp only [Option.some.injEq, Prod.mk.injEq] at h
    obtain ⟨-, -, rfl⟩ := h
    simp at hok
  by_cases h1 : signupSchema body = false
  · rw [if_pos h1] at hrun
    exact (hfail _ _ _ _ hrun).elim
  · rw [if_neg h1] at hrun
    dsimp only at hrun
    by_cases h2 : whitelist.multiAllowed.contains clientIP = false ∧
        authDB.auth.any (fun e => decide (e.2.registrationIP = clientIP)) = true
    · rw [if_pos h2] at hrun
      exact (hfail _ _ _ _ hrun).elim
    · rw [if_neg h2] at hrun
      by_cases h3 : (findAuthByUsernameLower authDB (toLower body.username)).isSome = true
      · rw [if_pos h3] at hrun
        exact (hfail _ _ _ _ hrun).elim
      · rw [if_neg h3] at hrun
        cases hid : generateUniqueId usersDB uId with
        | none => rw [hid] at hrun; simp at hrun
        | some userId =>
          rw [hid] at hrun
          simp only [Option.some.injEq, Prod.mk.injEq] at hrun
          obtain ⟨rfl, -, -⟩ := hrun
          exact ⟨userId, rfl, lookup_putUser_self usersDB.users userId _⟩

theorem apiChangeQuestion_found (uType uA uB : ℚ) (session : Session) (usersDB : UsersDB)
    (id : String) (stored : User)
    (hid : session.userId = some id) (hne : id ≠ "") (hget : usersDB.get id = some stored) :
    apiChangeQuestion uType uA uB session usersDB
      = ({ users := setUser usersDB.users id
             { stored with actualQuestion := changeQuestion uType uA uB } },
         { status := 200, ok := true, message := none,
           question := some (changeQuestion uType uA uB) }) := by
  simp only [apiChangeQuestion, hid, if_neg hne, hget]

theorem foldl_count_positive (l : List (String × Nat)) : ∀ acc : Nat,
    l.foldl (fun uniq e => if 0 < e.2 then uniq + 1 else uniq) acc
      = acc + l.countP (fun e => decide (0 < e.2)) := by
  induction l with
  | nil => intro acc; simp
  | cons e rest ih =>
    intro acc
    simp only [List.foldl, List.countP_cons]
    rw [ih]
    by_cases h : 0 < e.2
    · simp [h]; omega
    · simp [h]

theorem foldl_sum_counts (l : List (String × Nat)) : ∀ acc : Nat,
    l.foldl (fun sum e => sum + e.2) acc = acc + (l.map Prod.snd).sum := by
  induction l with
  | nil => intro acc; simp
  | cons e rest ih =>
    intro acc
    simp only [List.foldl, List.map, List.sum_cons]
    rw [ih]
    omega

/-! ## Claims -/

/-- C1: with `todayHoney = 0` the reward is read off the wheel draw
`w = ⌊u * 1000⌋`, which lies in `[0, 1000)`: 25 below 600, 50 below 800,
100 below 900, 200 below 950, 500 below 995 and 1000 otherwise; so the reward is
one of 25, 50, 100, 200, 500, 1000. -/
theorem first_reward_tier_table (u : ℚ) (h0 : 0 ≤ u) (h1 : u < 1) (w : Nat)
    (hw : w = floorRandom u 1000) :
    w < 1000 ∧
    (w < 600 → finalRandomHoney 0 u = 25) ∧
    (600 ≤ w → w < 800 → finalRandomHoney 0 u = 50) ∧
    (800 ≤ w → w < 900 → finalRandomHoney 0 u = 100) ∧
    (900 ≤ w → w < 950 → finalRandomHoney 0 u = 200) ∧
    (950 ≤ w → w < 995 → finalRandomHoney 0 u = 500) ∧
    (995 ≤ w → w < 1000 → finalRandomHoney 0 u = 1000) ∧
    finalRandomHoney 0 u ∈ [25, 50, 100, 200, 500, 1000] := by
  have hlt : w < 1000 := hw ▸ floorRandom_lt u h0 h1 1000 (by norm_num)
  simp only [finalRandomHoney, if_pos, ← hw, wheelReward]
  refine ⟨hlt, ?_, ?_, ?_, ?_, ?_, ?_, ?_⟩
  · intro h; simp [h]
  · intro a b
    rw [if_neg (by omega), if_pos b]
  · intro a b
    rw [if_neg (by omega), if_neg (by omega), if_pos b]
  · intro a b
    rw [if_neg (by omega), if_neg (by omega), if_neg (by omega), if_pos b]
  · intro a b
    rw [if_neg (by omega), if_neg (by omega), if_neg (by omega), if_neg (by omega), if_pos b]
  · intro a b
    rw [if_neg (by omega), if_neg (by omega), if_neg (by omega), if_neg (by omega),
      if_neg (by omega)]
  · split_ifs <;> simp

/-- Witness of C1 at the draw `u = 31/32`, wheel value 968. -/
theorem first_reward_tier_table_witness :
    floorRandom (31 / 32) 1000 = 968 ∧ finalRandomHoney 0 (31 / 32) = 500 := by
  have hw : floorRandom (31 / 32) 1000 = 968 :=
    floorRandom_eq (31 / 32) 1000 968 (by norm_num) (by norm_num) (by norm_num)
  exact ⟨hw, (first_reward_tier_table (31 / 32) (by norm_num) (by norm_num) 968 hw.symm).2.2.2.2.2.1
    (by norm_num) (by norm_num)⟩

/-- C2 fails as stated: with `todayHoney = 100` (band 1..500) the draw
`u = 127/128` gives the reward 50, which is not below 50. -/
theorem band_high_exclusive_counterexample :
    1 ≤ 100 ∧ 100 ≤ 500 ∧ (0 : ℚ) ≤ 127 / 128 ∧ (127 / 128 : ℚ) < 1 ∧
    finalRandomHoney 100 (127 / 128) = 50 ∧ ¬ finalRandomHoney 100 (127 / 128) < 50 := by
  have h : finalRandomHoney 100 (127 / 128) = 50 := by
    have hf : floorRandom (127 / 128) 26 = 25 :=
      floorRandom_eq (127 / 128) 26 25 (by norm_num) (by norm_num) (by norm_num)
    simp [finalRandomHoney, hf]
  refine ⟨by norm_num, by norm_num, by norm_num, by norm_num, h, ?_⟩
  rw [h]; norm_num

/-- C2 as amended: for a non-zero `todayHoney` the band is chosen by the
thresholds 501, 1001, 2001, 5001 on the before value and the reward lies in the
band's range with both ends inclusive: 25..50, 10..20, 5..10 and 1..5. -/
theorem band_reward_ranges (d : Nat) (u : ℚ) (h0 : 0 ≤ u) (h1 : u < 1) :
    (1 ≤ d → d ≤ 500 → 25 ≤ finalRandomHoney d u ∧ finalRandomHoney d u ≤ 50) ∧
    (501 ≤ d → d ≤ 1000 → 10 ≤ finalRandomHoney d u ∧ finalRandomHoney d u ≤ 20) ∧
    (1001 ≤ d → d ≤ 2000 → 5 ≤ finalRandomHoney d u ∧ finalRandomHoney d u ≤ 10) ∧
    (2001 ≤ d → d ≤ 5000 → 1 ≤ finalRandomHoney d u ∧ finalRandomHoney d u ≤ 5) := by
  have h26 := floorRandom_lt u h0 h1 26 (by norm_num)
  have h11 := floorRandom_lt u h0 h1 11 (by norm_num)
  have h6 := floorRandom_lt u h0 h1 6 (by norm_num)
  have h5 := floorRandom_lt u h0 h1 5 (by norm_num)
  refine ⟨?_, ?_, ?_, ?_⟩ <;> intro a b <;> unfold finalRandomHoney
  · rw [if_neg (by omega), if_pos (by omega)]; omega
  · rw [if_neg (by omega), if_neg (by omega), if_pos (by omega)]; omega
  · rw [if_neg (by omega), if_neg (by omega), if_neg (by omega), if_pos (by omega)]; omega
  · rw [if_neg (by omega), if_neg (by omega), if_neg (by omega), if_neg (by omega),
      if_pos (by omega)]
    omega

/-- Witness of the amended C2 at `todayHoney = 100`, `u = 127/128`. -/
theorem band_reward_ranges_witness :
    25 ≤ finalRandomHoney 100 (127 / 128) ∧ finalRandomHoney 100 (127 / 128) ≤ 50 :=
  (band_reward_ranges 100 (127 / 128) (by norm_num) (by norm_num)).1 (by norm_num) (by norm_num)

/-- C3 fails as stated: with `todayHoney = 6000` the draw `u = 3/4` gives the
reward 2, which is neither 0 nor 1. -/
theorem band_7500_counterexample :
    5001 ≤ 6000 ∧ 6000 ≤ 7500 ∧ (0 : ℚ) ≤ 3 / 4 ∧ (3 / 4 : ℚ) < 1 ∧
    finalRandomHoney 6000 (3 / 4) = 2 ∧ ¬ finalRandomHoney 6000 (3 / 4) < 2 := by
  have h : finalRandomHoney 6000 (3 / 4) = 2 := by
    have hf : floorRandom (3 / 4) 3 = 2 :=
      floorRandom_eq (3 / 4) 3 2 (by norm_num) (by norm_num) (by norm_num)
    simp [finalRandomHoney, hf]
  refine ⟨by norm_num, by norm_num, by norm_num, by norm_num, h, ?_⟩
  rw [h]; norm_num

/-- C3 as amended: for `todayHoney` in 5001..7500 the reward lies in `[0, 3)`,
that is, it is 0, 1 or 2. -/
theorem band_7500_reward (d : Nat) (u : ℚ) (h0 : 0 ≤ u) (h1 : u < 1)
    (hlo : 5001 ≤ d) (hhi : d ≤ 7500) :
    finalRandomHoney d u < 3 ∧
    (finalRandomHoney d u = 0 ∨ finalRandomHoney d u = 1 ∨ finalRandomHoney d u = 2) := by
  have h3 := floorRandom_lt u h0 h1 3 (by norm_num)
  unfold finalRandomHoney
  rw [if_neg (by omega), if_neg (by omega), if_neg (by omega), if_neg (by omega),
    if_neg (by omega), if_pos (by omega)]
  omega

/-- Witness of the amended C3 at `todayHoney = 6000`, `u = 3/4`. -/
theorem band_7500_reward_witness :
    finalRandomHoney 6000 (3 / 4) < 3 ∧
    (finalRandomHoney 6000 (3 / 4) = 0 ∨ finalRandomHoney 6000 (3 / 4) = 1 ∨
      finalRandomHoney 6000 (3 / 4) = 2) :=
  band_7500_reward 6000 (3 / 4) (by norm_num) (by norm_num) (by norm_num) (by norm_num)

/-- C4: for `todayHoney ≥ 7501` the reward is 0 or 1 and nothing else. -/
theorem top_band_reward (d : Nat) (u : ℚ) (h0 : 0 ≤ u) (h1 : u < 1) (hd : 7501 ≤ d) :
    finalRandomHoney d u = 0 ∨ finalRandomHoney d u = 1 := by
  have h2 := floorRandom_lt u h0 h1 2 (by norm_num)
  unfold finalRandomHoney
  rw [if_neg (by omega), if_neg (by omega), if_neg (by omega), if_neg (by omega),
    if_neg (by omega), if_neg (by omega)]
  omega

/-- Witness of C4 at `todayHoney = 8000`, `u = 1/2`. -/
theorem top_band_reward_witness :
    finalRandomHoney 8000 (1 / 2) = 0 ∨ finalRandomHoney 8000 (1 / 2) = 1 :=
  top_band_reward 8000 (1 / 2) (by norm_num) (by norm_num) (by norm_num)

/-- C5: the largest reward attainable for the before-value `d`, over all draws,
is 1000 for `d = 0`, 50 on 1..500, 20 on 501..1000, 10 on 1001..2000, 5 on
2001..5000, 2 on 5001..7500 and 1 from 7501 on; and the ceiling never grows
with `d`. -/
theorem reward_ceiling_antitone :
    IsGreatest (attainableRewards 0) 1000 ∧
    (∀ d, 1 ≤ d → d ≤ 500 → IsGreatest (attainableRewards d) 50) ∧
    (∀ d, 501 ≤ d → d ≤ 1000 → IsGreatest (attainableRewards d) 20) ∧
    (∀ d, 1001 ≤ d → d ≤ 2000 → IsGreatest (attainableRewards d) 10) ∧
    (∀ d, 2001 ≤ d → d ≤ 5000 → IsGreatest (attainableRewards d) 5) ∧
    (∀ d, 5001 ≤ d → d ≤ 7500 → IsGreatest (attainableRewards d) 2) ∧
    (∀ d, 7501 ≤ d → IsGreatest (attainableRewards d) 1) ∧
    (∀ d1 d2 c1 c2, d1 ≤ d2 → IsGreatest (attainableRewards d1) c1 →
      IsGreatest (attainableRewards d2) c2 → c2 ≤ c1) := by
  have hval : ∀ d c, bandCeiling d = c → IsGreatest (attainableRewards d) c :=
    fun d c h => h ▸ isGreatest_bandCeiling d
  refine ⟨hval 0 1000 rfl, ?_, ?_, ?_, ?_, ?_, ?_, ?_⟩
  · intro d a b
    refine hval d 50 ?_
    unfold bandCeiling
    rw [if_neg (by omega), if_pos (by omega)]
  · intro d a b
    refine hval d 20 ?_
    unfold bandCeiling
    rw [if_neg (by omega), if_neg (by omega), if_pos (by omega)]
  · intro d a b
    refine hval d 10 ?_
    unfold bandCeiling
    rw [if_neg (by omega), if_neg (by omega), if_neg (by omega), if_pos (by omega)]
  · intro d a b
    refine hval d 5 ?_
    unfold bandCeiling
    rw [if_neg (by omega), if_neg (by omega), if_neg (by omega), if_neg (by omega),
      if_pos (by omega)]
  · intro d a b
    refine hval d 2 ?_
    unfold bandCeiling
    rw [if_neg (by omega), if_neg (by omega), if_neg (by omega), if_neg (by omega),
      if_neg (by omega), if_pos (by omega)]
  · intro d a
    refine hval d 1 ?_
    unfold bandCeiling
    rw [if_neg (by omega), if_neg (by omega), if_neg (by omega), if_neg (by omega),
      if_neg (by omega), if_neg (by omega)]
  · intro d1 d2 c1 c2 h g1 g2
    rw [g1.unique (isGreatest_bandCeiling d1), g2.unique (isGreatest_bandCeiling d2)]
    exact bandCeiling_antitone d1 d2 h

/-- Witness of C5: the ceilings at `d = 500` and `d = 501` are 50 and 20. -/
theorem reward_ceiling_antitone_witness :
    IsGreatest (attainableRewards 500) 50 ∧ IsGreatest (attainableRewards 501) 20 ∧
    (20 : Nat) ≤ 50 :=
  have g1 := reward_ceiling_antitone.2.1 500 (by norm_num) (by norm_num)
  have g2 := reward_ceiling_antitone.2.2.1 501 (by norm_num) (by norm_num)
  ⟨g1, g2, reward_ceiling_antitone.2.2.2.2.2.2.2 500 501 50 20 (by norm_num) g1 g2⟩

set_option maxRecDepth 100000 in
/-- C6: of the 1000 wheel values 0..999 exactly 600 give 25, 200 give 50, 100
give 100, 50 give 200, 45 give 500 and 5 give 1000. -/
theorem wheel_tier_counts :
    ((List.range 1000).filter (fun w => wheelReward w = 25)).length = 600 ∧
    ((List.range 1000).filter (fun w => wheelReward w = 50)).length = 200 ∧
    ((List.range 1000).filter (fun w => wheelReward w = 100)).length = 100 ∧
    ((List.range 1000).filter (fun w => wheelReward w = 200)).length = 50 ∧
    ((List.range 1000).filter (fun w => wheelReward w = 500)).length = 45 ∧
    ((List.range 1000).filter (fun w => wheelReward w = 1000)).length = 5 := by
  decide

/-- C7: for a logged-in user with a stored record, `/api/add-honey` with reward
`r` stores `todayHoney = d + r` (`d` the value after lazy correction),
`stats.totalHoney + r` and `honey + r`, and answers 200 with `ok = true`,
`added = r` and the three new stored values; a reward of 0 is answered the same
way. -/
theorem addHoney_applies_reward (today : String) (u : ℚ) (session : Session)
    (usersDB : UsersDB) (id : String) (stored : User)
    (hid : session.userId = some id) (hne : id ≠ "") (hget : usersDB.get id = some stored) :
    ∃ d usersDB' reply user',
      (ensureDailyFieldsAndResetIfNeeded today stored).todayHoney = JsVal.num d ∧
      addHoney today u session usersDB = some (usersDB', reply) ∧
      usersDB'.get id = some user' ∧
      user'.todayHoney = JsVal.num (d + finalRandomHoney d u) ∧
      user'.stats.totalHoney = stored.stats.totalHoney + finalRandomHoney d u ∧
      user'.honey = stored.honey + finalRandomHoney d u ∧
      reply.ok = true ∧ reply.status = 200 ∧
      reply.added = some (finalRandomHoney d u) ∧
      reply.honey = some user'.honey ∧
      reply.todayHoney = some (d + finalRandomHoney d u) ∧
      reply.totalHoney = some user'.stats.totalHoney := by
  obtain ⟨d, hd⟩ := ensureDaily_todayHoney_isNumber today stored
  obtain ⟨hh, hs⟩ := ensureDaily_other_fields today stored
  have hrun : ∃ out user', addHoney today u session usersDB = some out ∧
      out.1.users = setUser usersDB.users id user' ∧
      user'.todayHoney = JsVal.num (d + finalRandomHoney d u) ∧
      user'.stats.totalHoney = stored.stats.totalHoney + finalRandomHoney d u ∧
      user'.honey = stored.honey + finalRandomHoney d u ∧
      out.2 = { status := 200, ok := true, message := none,
                added := some (finalRandomHoney d u),
                honey := some (stored.honey + finalRandomHoney d u),
                todayHoney := some (d + finalRandomHoney d u),
                totalHoney := some (stored.stats.totalHoney + finalRandomHoney d u) } := by
    simp only [addHoney, hid, if_neg hne, hget, hd, hh, hs]
    exact ⟨_, _, rfl, rfl, rfl, rfl, rfl, rfl⟩
  obtain ⟨⟨usersDB', reply⟩, user', hout, hdb, h1, h2, h3, hreply⟩ := hrun
  dsimp only at hdb hreply
  have hlook : usersDB'.get id = some user' := by
    unfold UsersDB.get
    rw [hdb]
    exact lookup_setUser_self usersDB.users id stored _ hget
  refine ⟨d, usersDB', reply, user', hd, hout, hlook, h1, h2, h3, ?_⟩
  subst hreply
  simp [h2, h3]

/-- Witness of C7: a user at 8000 today and the draw `u = 0`; the reward is 0 and
the request succeeds. -/
theorem addHoney_applies_reward_witness :
    ∃ usersDB' reply,
      addHoney "2025-01-02" 0 sampleSession { users := [("1", freshUser)] }
        = some (usersDB', reply) ∧
      reply.ok = true ∧ reply.added = some 0 ∧ reply.todayHoney = some 8000 := by
  obtain ⟨d, usersDB', reply, user', hd, hrun, -, -, -, -, hok, -, hadd, -, htoday, -⟩ :=
    addHoney_applies_reward "2025-01-02" 0 sampleSession { users := [("1", freshUser)] } "1"
      freshUser rfl (by decide) rfl
  have h8000 : d = 8000 := by
    have hfix : (ensureDailyFieldsAndResetIfNeeded "2025-01-02" freshUser).todayHoney
        = JsVal.num 8000 := by
      rw [ensureDaily_fresh "2025-01-02" freshUser rfl rfl]; rfl
    rw [hfix] at hd
    exact (JsVal.num.inj hd).symm
  subst h8000
  have hr : finalRandomHoney 8000 0 = 0 := by
    simp [finalRandomHoney, floorRandom]
  rw [hr] at hadd htoday
  exact ⟨usersDB', reply, hrun, hok, hadd, htoday⟩

/-- C8: after the lazy correction the record has `lastDailyReset = today` and a
numeric `todayHoney`; a stale string date zeroes `todayHoney`; a record already
at `today` with a numeric `todayHoney` is unchanged. -/
theorem ensureDaily_postcondition (today : String) (user : User) :
    (ensureDailyFieldsAndResetIfNeeded today user).lastDailyReset = JsVal.str today ∧
    (ensureDailyFieldsAndResetIfNeeded today user).todayHoney.isNumber = true ∧
    (∀ s, user.lastDailyReset = JsVal.str s → s ≠ today →
      (ensureDailyFieldsAndResetIfNeeded today user).todayHoney = JsVal.num 0) ∧
    (user.lastDailyReset = JsVal.str today → user.todayHoney.isNumber = true →
      ensureDailyFieldsAndResetIfNeeded today user = user) := by
  refine ⟨ensureDaily_lastDailyReset today user, ?_, ?_, ensureDaily_fresh today user⟩
  · obtain ⟨d, hd⟩ := ensureDaily_todayHoney_isNumber today user
    rw [hd]; rfl
  · intro s hs hne
    have hne' : JsVal.str s ≠ JsVal.str today := fun h => hne (JsVal.str.inj h)
    unfold ensureDailyFieldsAndResetIfNeeded
    dsimp only
    split_ifs <;> simp_all [JsVal.isString]

/-- Witness of C8: the stale user of 2025-01-01 corrected on 2025-01-02. -/
theorem ensureDaily_postcondition_witness :
    (ensureDailyFieldsAndResetIfNeeded "2025-01-02" staleUser).todayHoney = JsVal.num 0 ∧
    ensureDailyFieldsAndResetIfNeeded "2025-01-02" freshUser = freshUser :=
  ⟨(ensureDaily_postcondition "2025-01-02" staleUser).2.2.1 "2025-01-01" rfl (by decide),
   (ensureDaily_postcondition "2025-01-02" freshUser).2.2.2 rfl rfl⟩

/-- C9: the lazy correction is idempotent for a fixed `today`. -/
theorem ensureDaily_idempotent (today : String) (user : User) :
    ensureDailyFieldsAndResetIfNeeded today (ensureDailyFieldsAndResetIfNeeded today user)
      = ensureDailyFieldsAndResetIfNeeded today user := by
  apply ensureDaily_fresh
  · exact ensureDaily_lastDailyReset today user
  · obtain ⟨d, hd⟩ := ensureDaily_todayHoney_isNumber today user
    rw [hd]; rfl

/-- C10 fails as stated: on 2025-01-02 a logged-in user whose record was last
reset on 2025-01-01 with `todayHoney = 8000` gets that record back from
`/api/me` and from a successful `/api/login`, with `todayHoney = 8000` and
`lastDailyReset = "2025-01-01"`. -/
theorem profile_read_stale_counterexample :
    staleUser.lastDailyReset ≠ JsVal.str "2025-01-02" ∧
    (apiMe sampleSession { users := [("1", staleUser)] }).ok = true ∧
    (apiMe sampleSession { users := [("1", staleUser)] }).profile = some staleUser ∧
    (apiLogin (fun _ _ => true) "2025-01-02T09:00:00.000Z" "sid"
      { username := "Bee", password := "pw" } { userId := none, username := none }
      { users := [("1", staleUser)] } sampleAuthDB).2.2.ok = true ∧
    (apiLogin (fun _ _ => true) "2025-01-02T09:00:00.000Z" "sid"
      { username := "Bee", password := "pw" } { userId := none, username := none }
      { users := [("1", staleUser)] } sampleAuthDB).2.2.profile = some staleUser ∧
    staleUser.todayHoney = JsVal.num 8000 ∧ staleUser.todayHoney ≠ JsVal.num 0 := by
  refine ⟨by decide, by decide, by decide, by decide, by decide, by decide, by decide⟩

/-- C10 as amended: `/api/me` and a successful `/api/login` return the stored
record of the user exactly as stored, whatever its `lastDailyReset`: no lazy
correction is applied on a profile read. -/
theorem profile_read_returns_stored (session : Session) (usersDB : UsersDB) (id : String)
    (stored : User) (hid : session.userId = some id) (hne : id ≠ "")
    (hget : usersDB.get id = some stored) :
    (apiMe session usersDB).ok = true ∧ (apiMe session usersDB).profile = some stored ∧
    (∀ verify now sessionID body session0 authDB,
      (apiLogin verify now sessionID body session0 usersDB authDB).2.2.ok = true →
      (apiLogin verify now sessionID body session0 usersDB authDB).1.userId = some id →
      (apiLogin verify now sessionID body session0 usersDB authDB).2.2.profile = some stored) := by
  refine ⟨by simp [apiMe, hid, hne], by simp [apiMe, hid, hne, hget], ?_⟩
  intro verify now sessionID body session0 authDB
  unfold apiLogin
  split_ifs with h1
  · simp
  · dsimp only
    split
    · simp
    · rename_i userId authRecord hfind
      split_ifs with h2 h3
      · simp
      · split
        · rename_i hnone
          intro _ hsess
          simp only [Option.some.injEq] at hsess
          subst hsess
          rw [hget] at hnone
          simp at hnone
        · rename_i user huser
          intro _ hsess
          simp only [Option.some.injEq] at hsess
          subst hsess
          rw [hget] at huser
          simp only [Option.some.injEq] at huser
          simp [huser]
      · split
        · simp
        · rename_i user huser
          intro _ hsess
          simp only [Option.some.injEq] at hsess
          subst hsess
          rw [hget] at huser
          simp only [Option.some.injEq] at huser
          simp [huser]

/-- Witness of the amended C10 on the stale record of user `"1"`. -/
theorem profile_read_returns_stored_witness :
    (apiMe sampleSession { users := [("1", staleUser)] }).profile = some staleUser ∧
    (apiLogin (fun _ _ => true) "2025-01-02T09:00:00.000Z" "sid"
      { username := "Bee", password := "pw" } { userId := none, username := none }
      { users := [("1", staleUser)] } sampleAuthDB).2.2.profile = some staleUser :=
  have h := profile_read_returns_stored sampleSession { users := [("1", staleUser)] } "1"
    staleUser rfl (by decide) rfl
  ⟨h.2.1, h.2.2 (fun _ _ => true) "2025-01-02T09:00:00.000Z" "sid"
    { username := "Bee", password := "pw" } { userId := none, username := none } sampleAuthDB
    (by decide) (by decide)⟩

/-- C11 fails as stated: a successful signup of `Bee` on 2025-01-02 into empty
stores creates user `"1"` whose stored record has neither `todayHoney` nor
`lastDailyReset`. -/
theorem signup_daily_fields_counterexample :
    (apiSignup (fun _ => "h") "2025-01-02T09:00:00.000Z" "10.0.0.7" { multiAllowed := [] }
      0 0 0 0 { username := "Bee", password := "secret" } { users := [] } { auth := [] }).map
      (fun r => (r.2.2.ok, (r.1.get "1").map (fun x => (x.todayHoney, x.lastDailyReset))))
      = some (true, some (JsVal.undefined, JsVal.undefined)) ∧
    JsVal.undefined ≠ JsVal.num 0 ∧ JsVal.undefined ≠ JsVal.str "2025-01-02" := by
  refine ⟨by decide, by decide, by decide⟩

/-- C11 as amended: the record a successful signup stores, under the id
`generateUniqueId` returned, has no `todayHoney` and no `lastDailyReset` (and
`honey = 0`, `stats.totalHoney = 0`); the lazy correction on any date `today`
turns it into a record with `todayHoney = 0` and `lastDailyReset = today`. -/
theorem signup_record_daily_fields (hash : String → String) (now clientIP : String)
    (whitelist : Whitelist) (uType uA uB uId : ℚ) (body : Credentials) (usersDB : UsersDB)
    (authDB : AuthDB) (usersDB' : UsersDB) (authDB' : AuthDB) (reply : SignupReply)
    (hrun : apiSignup hash now clientIP whitelist uType uA uB uId body usersDB authDB
      = some (usersDB', authDB', reply))
    (hok : reply.ok = true) :
    ∃ userId record,
      generateUniqueId usersDB uId = some userId ∧
      usersDB'.get userId = some record ∧
      record.todayHoney = JsVal.undefined ∧ record.lastDailyReset = JsVal.undefined ∧
      record.honey = 0 ∧ record.stats.totalHoney = 0 ∧
      ∀ today,
        (ensureDailyFieldsAndResetIfNeeded today record).todayHoney = JsVal.num 0 ∧
        (ensureDailyFieldsAndResetIfNeeded today record).lastDailyReset = JsVal.str today := by
  unfold apiSignup at hrun
  have hfail : ∀ (x : UsersDB) (y : AuthDB) (status : Nat) (message : Option String),
      some (x, y, ({ status := status, ok := false, message := message } : SignupReply))
        = some (usersDB', authDB', reply) → False := by
    intro x y status message h
    simp only [Option.some.injEq, Prod.mk.injEq] at h
    obtain ⟨-, -, rfl⟩ := h
    simp at hok
  by_cases h1 : signupSchema body = false
  · rw [if_pos h1] at hrun
    exact (hfail _ _ _ _ hrun).elim
  · rw [if_neg h1] at hrun
    dsimp only at hrun
    by_cases h2 : whitelist.multiAllowed.contains clientIP = false ∧
        authDB.auth.any (fun e => decide (e.2.registrationIP = clientIP)) = true
    · rw [if_pos h2] at hrun
      exact (hfail _ _ _ _ hrun).elim
    · rw [if_neg h2] at hrun
      by_cases h3 : (findAuthByUsernameLower authDB (toLower body.username)).isSome = true
      · rw [if_pos h3] at hrun
        exact (hfail _ _ _ _ hrun).elim
      · rw [if_neg h3] at hrun
        cases hid : generateUniqueId usersDB uId with
        | none => rw [hid] at hrun; simp at hrun
        | some userId =>
          rw [hid] at hrun
          simp only [Option.some.injEq, Prod.mk.injEq] at hrun
          obtain ⟨rfl, -, -⟩ := hrun
          refine ⟨userId, _, rfl, lookup_putUser_self usersDB.users userId _, rfl, rfl, rfl,
            rfl, ?_⟩
          intro today
          simp [ensureDailyFieldsAndResetIfNeeded, signupRecord, JsVal.isNumber,
            JsVal.isString]

/-- Witness of the amended C11: the signup of `Bee` into empty stores. -/
theorem signup_record_daily_fields_witness :
    ∃ record, signupRecord "Bee" "2025-01-02T09:00:00.000Z" (signupQuestion 0 0 0) = record ∧
      record.todayHoney = JsVal.undefined ∧
      (ensureDailyFieldsAndResetIfNeeded "2025-01-02" record).todayHoney = JsVal.num 0 := by
  obtain ⟨userId, record, hid, hget, h1, -, -, -, h2⟩ :=
    signup_record_daily_fields (fun _ => "h") "2025-01-02T09:00:00.000Z" "10.0.0.7"
      { multiAllowed := [] } 0 0 0 0 { username := "Bee", password := "secret" } { users := [] }
      { auth := [] }
      { users := [("1", signupRecord "Bee" "2025-01-02T09:00:00.000Z" (signupQuestion 0 0 0))] }
      { auth := [("1", { usernameLower := "bee", passwordHash := "h",
                         registrationIP := "10.0.0.7", pwVersion := 1, lastLogin := none,
                         sessionId := none })] }
      { status := 201, ok := true, message := none } rfl rfl
  have hone : userId = "1" := by
    have h : generateUniqueId { users := [] } 0 = some "1" := by decide
    rw [h] at hid
    exact (Option.some.inj hid).symm
  subst hone
  have hrec : record = signupRecord "Bee" "2025-01-02T09:00:00.000Z" (signupQuestion 0 0 0) := by
    have h : ({ users := [("1", signupRecord "Bee" "2025-01-02T09:00:00.000Z"
        (signupQuestion 0 0 0))] } : UsersDB).get "1"
        = some (signupRecord "Bee" "2025-01-02T09:00:00.000Z" (signupQuestion 0 0 0)) := by
      simp [UsersDB.get, List.lookup]
    rw [h] at hget
    exact (Option.some.inj hget).symm
  exact ⟨record, hrec.symm, h1, (h2 "2025-01-02").1⟩

/-- C12: when the store can be read and written, `resetAllDailyHoney` on date
`today` returns the store in which every user has `todayHoney = 0` and
`lastDailyReset = today`, whatever the values before, with the same user ids in
the same order. -/
theorem resetAll_postcondition (today : String) (usersDB : UsersDB) :
    resetAllDailyHoney today true (some usersDB) = Outcome.returned (resetPass today usersDB) ∧
    (∀ id user, (resetPass today usersDB).get id = some user →
      user.todayHoney = JsVal.num 0 ∧ user.lastDailyReset = JsVal.str today) ∧
    (∀ e ∈ (resetPass today usersDB).users,
      e.2.todayHoney = JsVal.num 0 ∧ e.2.lastDailyReset = JsVal.str today) ∧
    (resetPass today usersDB).users.map Prod.fst = usersDB.users.map Prod.fst := by
  refine ⟨rfl, ?_, ?_, ?_⟩
  · intro id user h
    rw [resetPass_get] at h
    cases hget : usersDB.get id with
    | none => rw [hget] at h; simp at h
    | some stored =>
      rw [hget] at h
      simp only [Option.map_some', Option.some.injEq] at h
      subst h
      exact ⟨rfl, rfl⟩
  · intro e he
    simp only [resetPass, List.mem_map] at he
    obtain ⟨e0, -, rfl⟩ := he
    exact ⟨rfl, rfl⟩
  · simp [resetPass, List.map_map, Function.comp_def]

/-- Witness of C12: three users last reset on 2025-01-01, reset on 2025-01-02. -/
theorem resetAll_postcondition_witness :
    (resetPass "2025-01-02" threeStaleUsers).get "3"
      = some (sampleUser 9000 9000 (JsVal.num 0) (JsVal.str "2025-01-02")) ∧
    (sampleUser 9000 9000 (JsVal.num 0) (JsVal.str "2025-01-02")).todayHoney = JsVal.num 0 ∧
    (sampleUser 9000 9000 (JsVal.num 0) (JsVal.str "2025-01-02")).lastDailyReset
      = JsVal.str "2025-01-02" :=
  ⟨by decide, (resetAll_postcondition "2025-01-02" threeStaleUsers).2.1 "3" _ (by decide)⟩

/-- C13: if the offset of Europe/Madrid is +1 h or +2 h and changes only at
01:00 UTC, then for every instant `now` the instant `nextMadridMidnightUTCms`
returns reads 00:00:00.000 on the Madrid wall clock, on the civil date after
that of `now`; it is later than `now`, no instant between the two reads
midnight, and the offset read at the guess instant is the one in force at the
returned instant. -/
theorem nextMadridMidnight_exact (tz : Int → Int) (hrule : ChangesAtOneUTC tz) (now : Int) :
    (nextMadridMidnightUTCms tz now + tz (nextMadridMidnightUTCms tz now)) % msPerDay = 0 ∧
    madridDay tz (nextMadridMidnightUTCms tz now) = madridDay tz now + 1 ∧
    now < nextMadridMidnightUTCms tz now ∧
    (∀ s, now < s → (s + tz s) % msPerDay = 0 → nextMadridMidnightUTCms tz now ≤ s) ∧
    timeZoneOffsetMs tz ((madridDay tz now + 1) * msPerDay)
      = tz (nextMadridMidnightUTCms tz now) := by
  obtain ⟨hval, hconst⟩ := hrule
  simp only [msPerDay, msPerHour] at hval hconst
  simp only [nextMadridMidnightUTCms, timeZoneOffsetMs, madridDay, msPerDay]
  generalize hg : ((now + tz now) / 86400000 + 1) * 86400000 = g
  have hvg := hval g
  have hvn := hval now
  have hoff : (g + tz g) / 1000 * 1000 - g = tz g := by omega
  rw [hoff]
  have hcg := hconst g
  have hcn := hconst now
  have htg : tz (g - tz g) = tz g := by
    have hct := hconst (g - tz g)
    have harg : (g - tz g - 3600000) / 86400000 * 86400000 + 3600000
        = (g - 3600000) / 86400000 * 86400000 + 3600000 := by omega
    rw [harg] at hct
    exact hct.trans hcg.symm
  rw [htg]
  have hnow : now < g - tz g := by
    by_contra hge
    have harg : (now - 3600000) / 86400000 * 86400000 + 3600000
        = (g - 3600000) / 86400000 * 86400000 + 3600000 := by omega
    have hsame : tz now = tz g := by
      rw [harg] at hcn
      exact hcn.trans hcg.symm
    omega
  refine ⟨by omega, by omega, hnow, ?_, rfl⟩
  intro s hs hmid
  by_contra hlt
  have hvs := hval s
  have hcs := hconst s
  by_cases e1 : (s - 3600000) / 86400000 * 86400000 + 3600000
      = (g - 3600000) / 86400000 * 86400000 + 3600000
  · have hsame : tz s = tz g := by
      rw [e1] at hcs
      exact hcs.trans hcg.symm
    omega
  · by_cases e2 : (s - 3600000) / 86400000 * 86400000 + 3600000
        = (now - 3600000) / 86400000 * 86400000 + 3600000
    · have hsame : tz s = tz now := by
        rw [e2] at hcs
        exact hcs.trans hcn.symm
      omega
    · omega

/-- Witness of C13 on the evening before the spring-forward of 2025: at
2025-03-29 20:00 UTC the next Madrid midnight is 2025-03-29 23:00 UTC.  On the
day of the change, at 2025-03-30 12:00 UTC, it is 2025-03-30 22:00 UTC; before
and on the day of the fall-back, at 2025-10-25 20:00 UTC and 2025-10-26 12:00
UTC, it is 2025-10-25 22:00 UTC and 2025-10-26 23:00 UTC. -/
theorem nextMadridMidnight_exact_witness :
    nextMadridMidnightUTCms madridOffset2025 1743278400000 = 1743289200000 ∧
    (nextMadridMidnightUTCms madridOffset2025 1743278400000
      + madridOffset2025 (nextMadridMidnightUTCms madridOffset2025 1743278400000))
        % msPerDay = 0 ∧
    (1743278400000 : Int) < nextMadridMidnightUTCms madridOffset2025 1743278400000 ∧
    nextMadridMidnightUTCms madridOffset2025 1743336000000 = 1743372000000 ∧
    nextMadridMidnightUTCms madridOffset2025 1761422400000 = 1761429600000 ∧
    nextMadridMidnightUTCms madridOffset2025 1761480000000 = 1761519600000 := by
  have h := nextMadridMidnight_exact madridOffset2025 madridOffset2025_rule 1743278400000
  exact ⟨by decide, h.1, h.2.2.1, by decide, by decide, by decide⟩

/-- C14: `scheduleDailyReset` arms its timer with the delay
`max(0, nextMadridMidnightUTCms(now) - now)` for the `now` it read; the delay is
never negative, and it is the distance to the next Madrid midnight whenever that
midnight is not before `now`. -/
theorem scheduleDailyReset_delay (tz : Int → Int) (now : Int) (state : ServerState) :
    (scheduleDailyReset tz now state).pendingWake
      = some { armedAt := now, delay := max 0 (nextMadridMidnightUTCms tz now - now) } ∧
    0 ≤ scheduleDelay tz now ∧
    (now ≤ nextMadridMidnightUTCms tz now →
      scheduleDelay tz now = nextMadridMidnightUTCms tz now - now) := by
  refine ⟨rfl, ?_, ?_⟩
  · unfold scheduleDelay
    exact le_max_left _ _
  · intro h
    unfold scheduleDelay
    exact max_eq_right (by omega)

/-- Witness of C14: armed at 2025-03-29 20:00 UTC the delay is three hours. -/
theorem scheduleDailyReset_delay_witness :
    scheduleDelay madridOffset2025 1743278400000 = 10800000 := by
  have h := (scheduleDailyReset_delay madridOffset2025 1743278400000
    { usersFile := none, pendingWake := none }).2.2 (by decide)
  rw [h]
  decide

/-- C15 on the code: when `readUsersDB` or `writeUsersDB` throws inside
`resetAllDailyHoney`, the timer callback throws before it calls
`scheduleDailyReset`, and no wake is pending after it; a wake is pending after
the callback only when the reset returned. -/
theorem wake_failure_leaves_no_timer (tz : Int → Int) (now : Int) (today : String)
    (pending : Option Timer) :
    (∀ writable,
      wake tz now today writable { usersFile := none, pendingWake := pending }
        = Outcome.thrown "readUsersDB" ∧
      (stateAfterWake tz now today writable
        { usersFile := none, pendingWake := pending }).pendingWake = none) ∧
    (∀ usersDB,
      wake tz now today false { usersFile := some usersDB, pendingWake := pending }
        = Outcome.thrown "writeUsersDB" ∧
      (stateAfterWake tz now today false
        { usersFile := some usersDB, pendingWake := pending }).pendingWake = none) ∧
    (∀ usersDB,
      (stateAfterWake tz now today true
        { usersFile := some usersDB, pendingWake := pending }).pendingWake
        = some { armedAt := now, delay := scheduleDelay tz now }) := by
  refine ⟨fun writable => ⟨rfl, rfl⟩, fun usersDB => ⟨rfl, rfl⟩, fun usersDB => rfl⟩

/-- C16 on the code: after the start-up sequence no timer is armed, whatever the
date and the store. -/
theorem startup_arms_no_timer (today : String) (usersDB : UsersDB) :
    (startup today usersDB).pendingWake = none := rfl

/-- C17: `stats.totalHoney` of every stored user is not smaller after
`/api/add-honey` than before, whoever made the request and whatever the draw,
and it is exactly unchanged by the lazy correction and by the global reset. -/
theorem totalHoney_never_decreases :
    (∀ today u session usersDB usersDB' reply id user,
      addHoney today u session usersDB = some (usersDB', reply) →
      usersDB.get id = some user →
      ∃ user', usersDB'.get id = some user' ∧
        user.stats.totalHoney ≤ user'.stats.totalHoney) ∧
    (∀ today user,
      (ensureDailyFieldsAndResetIfNeeded today user).stats.totalHoney
        = user.stats.totalHoney) ∧
    (∀ today writable usersDB usersDB' id user,
      resetAllDailyHoney today writable (some usersDB) = Outcome.returned usersDB' →
      usersDB.get id = some user →
      ∃ user', usersDB'.get id = some user' ∧
        user'.stats.totalHoney = user.stats.totalHoney) := by
  refine ⟨?_, ?_, ?_⟩
  · intro today u session usersDB usersDB' reply id user hrun hget
    have hsame : usersDB' = usersDB →
        ∃ user', usersDB'.get id = some user' ∧
          user.stats.totalHoney ≤ user'.stats.totalHoney :=
      fun h => ⟨user, h ▸ hget, le_refl _⟩
    cases hsid : session.userId with
    | none =>
      simp only [addHoney, hsid, Option.some.injEq, Prod.mk.injEq] at hrun
      exact hsame hrun.1.symm
    | some id0 =>
      by_cases hne : id0 = ""
      · simp only [addHoney, hsid, if_pos hne, Option.some.injEq, Prod.mk.injEq] at hrun
        exact hsame hrun.1.symm
      · cases hget0 : usersDB.get id0 with
        | none =>
          simp only [addHoney, hsid, if_neg hne, hget0] at hrun
          split_ifs at hrun <;>
            (simp only [Option.some.injEq, Prod.mk.injEq] at hrun
             exact hsame hrun.1.symm)
        | some stored =>
          obtain ⟨d, hd⟩ := ensureDaily_todayHoney_isNumber today stored
          rw [addHoney_found today u session usersDB id0 stored d hsid hne hget0 hd] at hrun
          simp only [Option.some.injEq, Prod.mk.injEq] at hrun
          obtain ⟨rfl, -⟩ := hrun
          by_cases hsameid : id = id0
          · subst hsameid
            rw [hget0] at hget
            obtain rfl := Option.some.inj hget
            refine ⟨_, lookup_setUser_self usersDB.users id stored _ hget0, ?_⟩
            simp [(ensureDaily_other_fields today stored).2]
          · refine ⟨user, ?_, le_refl _⟩
            unfold UsersDB.get
            rw [lookup_setUser_other usersDB.users id0 id _ hsameid]
            exact hget
  · intro today user
    rw [(ensureDaily_other_fields today user).2]
  · intro today writable usersDB usersDB' id user hrun hget
    cases writable with
    | false => simp [resetAllDailyHoney] at hrun
    | true =>
      simp only [resetAllDailyHoney, if_true, Outcome.returned.injEq] at hrun
      subst hrun
      refine ⟨{ user with todayHoney := JsVal.num 0, lastDailyReset := JsVal.str today },
        ?_, rfl⟩
      rw [resetPass_get, hget]
      rfl

/-- Witness of C17: user `"1"` at 8000 today asks for honey with the draw 3/4. -/
theorem totalHoney_never_decreases_witness :
    ∃ user' : User, freshUser.stats.totalHoney ≤ user'.stats.totalHoney ∧
      user'.todayHoney = JsVal.num (8000 + finalRandomHoney 8000 (3 / 4)) := by
  have hrun := addHoney_found "2025-01-02" (3 / 4) sampleSession { users := [("1", freshUser)] }
    "1" freshUser 8000 rfl (by decide) rfl ensureDaily_freshUser
  obtain ⟨user', hget, hle⟩ := totalHoney_never_decreases.1 "2025-01-02" (3 / 4) sampleSession
    { users := [("1", freshUser)] } _ _ "1" freshUser hrun rfl
  refine ⟨user', hle, ?_⟩
  simp only [UsersDB.get, setUser, if_true, List.lookup, beq_self_eq_true,
    Option.some.injEq] at hget
  rw [← hget]

/-- C18 on the code: without a user id in the session `/api/add-honey` answers
401, and with the session id "1" on a store that only holds user "2" it answers
404 "User not found"; but with the session id "toString", which is no key of
that store either, the handler does not answer 404: it takes the inherited
property for the user, throws at line 566 and the answer is 500.  In the three
cases the store is the one before the request. -/
theorem addHoney_inherited_id_not_404 :
    addHoney "2025-01-02" (1 / 2) { userId := none, username := none }
        { users := [("2", freshUser)] }
      = some ({ users := [("2", freshUser)] }, AddHoneyReply.failure 401 "Not logged in") ∧
    addHoney "2025-01-02" (1 / 2) sampleSession { users := [("2", freshUser)] }
      = some ({ users := [("2", freshUser)] }, AddHoneyReply.failure 404 "User not found") ∧
    ({ users := [("2", freshUser)] } : UsersDB).get "toString" = none ∧
    addHoney "2025-01-02" (1 / 2) { userId := some "toString", username := none }
        { users := [("2", freshUser)] }
      = some ({ users := [("2", freshUser)] },
          { status := 500, ok := false, message := none, added := none, honey := none,
            todayHoney := none, totalHoney := none }) := by
  refine ⟨by decide, by decide, by decide, by decide⟩

/-- C19: two requests to `/api/add-honey` by found users whose `todayHoney`
after lazy correction is the same, made with the same draw, are answered with
the same reward, whatever the dates, the user ids, the stores and the other
fields of the two records. -/
theorem reward_depends_on_todayHoney_only (u : ℚ) (today1 today2 : String)
    (session1 session2 : Session) (usersDB1 usersDB2 : UsersDB) (id1 id2 : String)
    (stored1 stored2 : User)
    (hid1 : session1.userId = some id1) (hne1 : id1 ≠ "")
    (hget1 : usersDB1.get id1 = some stored1)
    (hid2 : session2.userId = some id2) (hne2 : id2 ≠ "")
    (hget2 : usersDB2.get id2 = some stored2)
    (hsame : (ensureDailyFieldsAndResetIfNeeded today1 stored1).todayHoney
      = (ensureDailyFieldsAndResetIfNeeded today2 stored2).todayHoney) :
    ∃ out1 out2 d,
      addHoney today1 u session1 usersDB1 = some out1 ∧
      addHoney today2 u session2 usersDB2 = some out2 ∧
      (ensureDailyFieldsAndResetIfNeeded today1 stored1).todayHoney = JsVal.num d ∧
      out1.2.added = some (finalRandomHoney d u) ∧
      out2.2.added = some (finalRandomHoney d u) := by
  obtain ⟨d, hd⟩ := ensureDaily_todayHoney_isNumber today1 stored1
  have hd2 : (ensureDailyFieldsAndResetIfNeeded today2 stored2).todayHoney = JsVal.num d :=
    hsame ▸ hd
  exact ⟨_, _, d, addHoney_found today1 u session1 usersDB1 id1 stored1 d hid1 hne1 hget1 hd,
    addHoney_found today2 u session2 usersDB2 id2 stored2 d hid2 hne2 hget2 hd2, hd, rfl, rfl⟩

/-- Witness of C19: a rich user and a poor user, both at 8000 today, with the
same draw. -/
theorem reward_depends_on_todayHoney_only_witness :
    ∃ out1 out2,
      addHoney "2025-01-02" (3 / 4) sampleSession { users := [("1", freshUser)] } = some out1 ∧
      addHoney "2025-01-02" (3 / 4) { userId := some "7", username := some "ant" }
        { users := [("7", sampleUser 3 8000 (JsVal.num 8000) (JsVal.str "2025-01-02"))] }
        = some out2 ∧
      out1.2.added = out2.2.added := by
  obtain ⟨out1, out2, d, h1, h2, -, ha1, ha2⟩ :=
    reward_depends_on_todayHoney_only (3 / 4) "2025-01-02" "2025-01-02" sampleSession
      { userId := some "7", username := some "ant" } { users := [("1", freshUser)] }
      { users := [("7", sampleUser 3 8000 (JsVal.num 8000) (JsVal.str "2025-01-02"))] }
      "1" "7" freshUser (sampleUser 3 8000 (JsVal.num 8000) (JsVal.str "2025-01-02"))
      rfl (by decide) rfl rfl (by decide) rfl (by decide)
  exact ⟨out1, out2, h1, h2, ha1.trans ha2.symm⟩

set_option maxRecDepth 100000 in
/-- C20 on the code: on the store whose only key is "9007199254740992", the
decimal string of `2 ^ 53`, with the draw 0 the increment is 1 and
`generateUniqueId` returns "9007199254740992", the key already in the store,
since `2 ^ 53 + 1` is rounded to `2 ^ 53`.  On the store with keys "1", "2", "3"
and the draw 1/2 it returns "7", and on the empty store "1". -/
theorem generateUniqueId_returns_existing_key :
    ({ users := [("9007199254740992", freshUser)] } : UsersDB).get "9007199254740992"
      = some freshUser ∧
    floorRandom 0 239 + 1 = 1 ∧
    generateUniqueId { users := [("9007199254740992", freshUser)] } 0
      = some "9007199254740992" ∧
    generateUniqueId threeStaleUsers (1 / 2) = some "7" ∧
    generateUniqueId { users := [] } (1 / 2) = some "1" := by
  have hz : floorRandom 0 239 = 0 :=
    floorRandom_eq 0 239 0 (by norm_num) (by norm_num) (by norm_num)
  refine ⟨by decide, by rw [hz], ?_, ?_, by decide⟩
  · have hids : userIds { users := [("9007199254740992", freshUser)] }
        = some [9007199254740992] := by decide
    have hmax : roundPow125 ((Nat.repr ([9007199254740992].foldl max 0)).length * 5) = 239 := by
      decide
    simp only [generateUniqueId, hids, hmax, hz]
    decide
  · have hids : userIds threeStaleUsers = some [1, 2, 3] := by decide
    have hmax : roundPow125 ((Nat.repr ([1, 2, 3].foldl max 0)).length * 5) = 7 := by decide
    have hf : floorRandom (1 / 2) 7 = 3 :=
      floorRandom_eq (1 / 2) 7 3 (by norm_num) (by norm_num) (by norm_num)
    simp only [generateUniqueId, hids, hmax, hf]
    decide

/-- C21 on the code: `usernameSchema` accepts letters only.  Usernames of
admissible length with `_`, `-`, a digit, `.` or a space are rejected, and
signup answers such a username with status 400 and the message that excepts `_`
and `-`; it stores nothing. -/
theorem usernameSchema_rejects_symbols :
    usernameSchema "bee_bee" = false ∧ usernameSchema "bee-bee" = false ∧
    usernameSchema "bee2" = false ∧ usernameSchema "b.ee" = false ∧
    usernameSchema "bee bee" = false ∧ usernameSchema "beebee" = true ∧
    (apiSignup (fun _ => "h") "2025-01-02T09:00:00.000Z" "10.0.0.7" { multiAllowed := [] }
      0 0 0 0 { username := "bee_bee", password := "secret" } { users := [] } { auth := [] }).map
      (fun r => (r.1, r.2.1, r.2.2.status, r.2.2.ok, r.2.2.message))
      = some (UsersDB.mk [], AuthDB.mk [], 400, false,
        some "Neither symbols and spaces are permitted (except _ and -)") := by
  refine ⟨by decide, by decide, by decide, by decide, by decide, by decide, by decide⟩

/-- C22: for a found user whose stored `lastDailyReset` is a string other than
today's date, whatever the stored `todayHoney`, `/api/add-honey` adds the reward
of the first-of-the-day tier table for the wheel value of the draw, one of 25,
50, 100, 200, 500, 1000, and stores that reward as `todayHoney` and today as
`lastDailyReset`. -/
theorem addHoney_stale_first_tier (today : String) (u : ℚ) (session : Session)
    (usersDB : UsersDB) (id : String) (stored : User) (s : String)
    (hid : session.userId = some id) (hne : id ≠ "") (hget : usersDB.get id = some stored)
    (hs : stored.lastDailyReset = JsVal.str s) (hstale : s ≠ today) :
    ∃ usersDB' reply user',
      addHoney today u session usersDB = some (usersDB', reply) ∧
      reply.ok = true ∧
      reply.added = some (wheelReward (floorRandom u 1000)) ∧
      wheelReward (floorRandom u 1000) ∈ [25, 50, 100, 200, 500, 1000] ∧
      usersDB'.get id = some user' ∧
      user'.todayHoney = JsVal.num (wheelReward (floorRandom u 1000)) ∧
      user'.lastDailyReset = JsVal.str today := by
  have hd := ensureDaily_stale today s stored hs hstale
  have hrun := addHoney_found today u session usersDB id stored 0 hid hne hget hd
  have hr : finalRandomHoney 0 u = wheelReward (floorRandom u 1000) := by
    simp [finalRandomHoney]
  rw [hr] at hrun
  refine ⟨_, _, _, hrun, rfl, rfl, wheelReward_mem _,
    lookup_setUser_self usersDB.users id stored _ hget, ?_, ?_⟩
  · simp
  · exact ensureDaily_lastDailyReset today stored

/-- Witness of C22: the user left at 8000 on 2025-01-01 asks on 2025-01-02 with
the draw 31/32, wheel value 968, and gets 500. -/
theorem addHoney_stale_first_tier_witness :
    ∃ usersDB' reply user',
      addHoney "2025-01-02" (31 / 32) sampleSession { users := [("1", staleUser)] }
        = some (usersDB', reply) ∧
      reply.added = some 500 ∧ usersDB'.get "1" = some user' ∧
      user'.todayHoney = JsVal.num 500 ∧ user'.lastDailyReset = JsVal.str "2025-01-02" := by
  obtain ⟨usersDB', reply, user', hrun, -, hadd, -, hget, htoday, hlast⟩ :=
    addHoney_stale_first_tier "2025-01-02" (31 / 32) sampleSession
      { users := [("1", staleUser)] } "1" staleUser "2025-01-01" rfl (by decide) rfl rfl
      (by decide)
  have hw : floorRandom (31 / 32) 1000 = 968 :=
    floorRandom_eq (31 / 32) 1000 968 (by norm_num) (by norm_num) (by norm_num)
  have h500 : wheelReward (floorRandom (31 / 32) 1000) = 500 := by
    rw [hw]; decide
  rw [h500] at hadd htoday
  exact ⟨usersDB', reply, user', hrun, hadd, hget, htoday, hlast⟩

/-- C23 on the code: from the draws 3/8, 3/128, 1/16 (type 1, operands 3 and 7)
signup generates the subtraction question (3, 3) and stores it for the new user,
while change-question generates and returns (7, 3). -/
theorem question_generators_differ :
    signupQuestion (3 / 8) (3 / 128) (1 / 16) = { type := "subtraction", n1 := 3, n2 := 3 } ∧
    changeQuestion (3 / 8) (3 / 128) (1 / 16) = { type := "subtraction", n1 := 7, n2 := 3 } ∧
    (apiSignup (fun _ => "h") "2025-01-02T09:00:00.000Z" "10.0.0.7" { multiAllowed := [] }
      (3 / 8) (3 / 128) (1 / 16) 0 { username := "Bee", password := "secret" } { users := [] }
      { auth := [] }).map (fun r => (r.1.get "1").map (fun x => x.actualQuestion))
      = some (some { type := "subtraction", n1 := 3, n2 := 3 }) ∧
    (apiChangeQuestion (3 / 8) (3 / 128) (1 / 16) sampleSession
      { users := [("1", freshUser)] }).2.question
      = some { type := "subtraction", n1 := 7, n2 := 3 } := by
  have ht : floorRandom (3 / 8) 4 = 1 :=
    floorRandom_eq (3 / 8) 4 1 (by norm_num) (by norm_num) (by norm_num)
  have ha : floorRandom (3 / 128) 100 = 2 :=
    floorRandom_eq (3 / 128) 100 2 (by norm_num) (by norm_num) (by norm_num)
  have hb : floorRandom (1 / 16) 100 = 6 :=
    floorRandom_eq (1 / 16) 100 6 (by norm_num) (by norm_num) (by norm_num)
  have hs : signupQuestion (3 / 8) (3 / 128) (1 / 16)
      = { type := "subtraction", n1 := 3, n2 := 3 } := by
    simp only [signupQuestion, ht, ha, hb]
    decide
  have hc : changeQuestion (3 / 8) (3 / 128) (1 / 16)
      = { type := "subtraction", n1 := 7, n2 := 3 } := by
    simp only [changeQuestion, ht, ha, hb]
    decide
  refine ⟨hs, hc, ?_, ?_⟩
  · have hrun : apiSignup (fun _ => "h") "2025-01-02T09:00:00.000Z" "10.0.0.7"
        { multiAllowed := [] } (3 / 8) (3 / 128) (1 / 16) 0
        { username := "Bee", password := "secret" } { users := [] } { auth := [] }
        = some ({ users := [("1", signupRecord "Bee" "2025-01-02T09:00:00.000Z"
                    (signupQuestion (3 / 8) (3 / 128) (1 / 16)))] },
                { auth := [("1", { usernameLower := "bee", passwordHash := "h",
                                   registrationIP := "10.0.0.7", pwVersion := 1,
                                   lastLogin := none, sessionId := none })] },
                { status := 201, ok := true, message := none }) := rfl
    rw [hrun, hs]
    simp [UsersDB.get, List.lookup, signupRecord]
  · have hrun : (apiChangeQuestion (3 / 8) (3 / 128) (1 / 16) sampleSession
        { users := [("1", freshUser)] }).2.question
        = some (changeQuestion (3 / 8) (3 / 128) (1 / 16)) := rfl
    rw [hrun, hc]

/-- C24: when signup draws a subtraction question whose first operand `a` is
smaller than its second operand `b` (both in 1..100), it generates `n1 = a` and
`n2 = a`, not `(b, a)`, and every successful signup stores that question in the
new user's record; change-question generates `(b, a)` from the same draws,
stores it in the record of the found user and returns it. -/
theorem signup_subtraction_no_swap (uType uA uB : ℚ) (hB0 : 0 ≤ uB) (hB1 : uB < 1)
    (htype : floorRandom uType 4 = 1)
    (hlt : floorRandom uA 100 + 1 < floorRandom uB 100 + 1) :
    1 ≤ floorRandom uA 100 + 1 ∧ floorRandom uB 100 + 1 ≤ 100 ∧
    signupQuestion uType uA uB
      = { type := "subtraction", n1 := floorRandom uA 100 + 1, n2 := floorRandom uA 100 + 1 } ∧
    signupQuestion uType uA uB
      ≠ { type := "subtraction", n1 := floorRandom uB 100 + 1, n2 := floorRandom uA 100 + 1 } ∧
    changeQuestion uType uA uB
      = { type := "subtraction", n1 := floorRandom uB 100 + 1, n2 := floorRandom uA 100 + 1 } ∧
    (∀ hash now clientIP whitelist uId body usersDB authDB usersDB' authDB' reply,
      apiSignup hash now clientIP whitelist uType uA uB uId body usersDB authDB
        = some (usersDB', authDB', reply) →
      reply.ok = true →
      ∃ userId record, generateUniqueId usersDB uId = some userId ∧
        usersDB'.get userId = some record ∧
        record.actualQuestion
          = { type := "subtraction", n1 := floorRandom uA 100 + 1,
              n2 := floorRandom uA 100 + 1 }) ∧
    (∀ session usersDB id stored,
      session.userId = some id → id ≠ "" → usersDB.get id = some stored →
      ∃ user', (apiChangeQuestion uType uA uB session usersDB).1.get id = some user' ∧
        user'.actualQuestion
          = { type := "subtraction", n1 := floorRandom uB 100 + 1,
              n2 := floorRandom uA 100 + 1 } ∧
        (apiChangeQuestion uType uA uB session usersDB).2.question
          = some { type := "subtraction", n1 := floorRandom uB 100 + 1,
                   n2 := floorRandom uA 100 + 1 }) := by
  have hb := floorRandom_lt uB hB0 hB1 100 (by norm_num)
  have hs : signupQuestion uType uA uB
      = { type := "subtraction", n1 := floorRandom uA 100 + 1,
          n2 := floorRandom uA 100 + 1 } := by
    simp [signupQuestion, htype, hlt]
  have hc : changeQuestion uType uA uB
      = { type := "subtraction", n1 := floorRandom uB 100 + 1,
          n2 := floorRandom uA 100 + 1 } := by
    simp [changeQuestion, htype, hlt]
  refine ⟨by omega, by omega, hs, ?_, hc, ?_, ?_⟩
  · rw [hs]
    intro h
    have := congrArg Question.n1 h
    simp only at this
    omega
  · intro hash now clientIP whitelist uId body usersDB authDB usersDB' authDB' reply hrun hok
    obtain ⟨userId, hid, hget⟩ := apiSignup_stored hash now clientIP whitelist uType uA uB uId
      body usersDB authDB usersDB' authDB' reply hrun hok
    exact ⟨userId, _, hid, hget, hs⟩
  · intro session usersDB id stored hid hne hget
    rw [apiChangeQuestion_found uType uA uB session usersDB id stored hid hne hget]
    refine ⟨_, lookup_setUser_self usersDB.users id stored _ hget, hc, ?_⟩
    simp only [hc]

/-- Witness of C24 at the draws 3/8, 3/128, 1/16, operands 3 and 7: the signup
of Bee into empty stores stores (3, 3) for user "1", and change-question for
user "1" stores (7, 3). -/
theorem signup_subtraction_no_swap_witness :
    floorRandom (3 / 128) 100 + 1 = 3 ∧ floorRandom (1 / 16) 100 + 1 = 7 ∧
    signupQuestion (3 / 8) (3 / 128) (1 / 16)
      = { type := "subtraction", n1 := floorRandom (3 / 128) 100 + 1,
          n2 := floorRandom (3 / 128) 100 + 1 } ∧
    (∃ userId record,
      generateUniqueId { users := [] } 0 = some userId ∧
      ({ users := [("1", signupRecord "Bee" "2025-01-02T09:00:00.000Z"
          (signupQuestion (3 / 8) (3 / 128) (1 / 16)))] } : UsersDB).get userId = some record ∧
      record.actualQuestion
        = { type := "subtraction", n1 := floorRandom (3 / 128) 100 + 1,
            n2 := floorRandom (3 / 128) 100 + 1 }) ∧
    (∃ user', (apiChangeQuestion (3 / 8) (3 / 128) (1 / 16) sampleSession
        { users := [("1", freshUser)] }).1.get "1" = some user' ∧
      user'.actualQuestion
        = { type := "subtraction", n1 := floorRandom (1 / 16) 100 + 1,
            n2 := floorRandom (3 / 128) 100 + 1 }) := by
  have ht : floorRandom (3 / 8) 4 = 1 :=
    floorRandom_eq (3 / 8) 4 1 (by norm_num) (by norm_num) (by norm_num)
  have ha : floorRandom (3 / 128) 100 = 2 :=
    floorRandom_eq (3 / 128) 100 2 (by norm_num) (by norm_num) (by norm_num)
  have hb : floorRandom (1 / 16) 100 = 6 :=
    floorRandom_eq (1 / 16) 100 6 (by norm_num) (by norm_num) (by norm_num)
  have h := signup_subtraction_no_swap (3 / 8) (3 / 128) (1 / 16) (by norm_num) (by norm_num)
    ht (by rw [ha, hb]; norm_num)
  refine ⟨by rw [ha], by rw [hb], h.2.2.1, ?_, ?_⟩
  · exact h.2.2.2.2.2.1 (fun _ => "h") "2025-01-02T09:00:00.000Z" "10.0.0.7"
      { multiAllowed := [] } 0 { username := "Bee", password := "secret" } { users := [] }
      { auth := [] } _
      { auth := [("1", { usernameLower := "bee", passwordHash := "h",
                         registrationIP := "10.0.0.7", pwVersion := 1, lastLogin := none,
                         sessionId := none })] }
      { status := 201, ok := true, message := none } rfl rfl
  · obtain ⟨user', hget, hq, -⟩ := h.2.2.2.2.2.2 sampleSession { users := [("1", freshUser)] }
      "1" freshUser rfl (by decide) rfl
    exact ⟨user', hget, hq⟩

/-- C25: for a logged-in caller and a metric that, lower-cased, is one of
honey, totalhoney, uniquehivees, totalhivees, `/api/leaderboard` answers 200
with `min(10, number of users)` items in non-increasing order of value; the
returned items together with the items left out are the items of all users
(name, avatar and the user's value for the metric), and each item left out has a
value not above that of any returned item.  For any other metric the answer is
400 without items.  The value of a user is `honey`, `stats.totalHoney`, the
number of collection entries with a positive count, or the sum of the counts. -/
theorem leaderboard_top_ten (session : Session) (metric : Option String) (usersDB : UsersDB)
    (id : String) (hid : session.userId = some id) (hne : id ≠ "") :
    (asciiLower (metric.getD "") ∈ allowedMetrics →
      ∃ items rest,
        apiLeaderboard session metric usersDB
          = { status := 200, ok := true, message := none,
              metric := some (asciiLower (metric.getD "")), items := some items } ∧
        items.length = min 10 usersDB.users.length ∧
        items.Pairwise (fun a b => b.value ≤ a.value) ∧
        (items ++ rest).Perm (usersDB.users.map (fun e =>
          ({ username := e.2.username
             avatar := if e.2.favCharacImage = "" then "./assets/HiveFest.png"
               else e.2.favCharacImage
             value := computeMetric (asciiLower (metric.getD "")) e.2 } : LeaderboardItem))) ∧
        ∀ x ∈ rest, ∀ y ∈ items, x.value ≤ y.value) ∧
    (asciiLower (metric.getD "") ∉ allowedMetrics →
      apiLeaderboard session metric usersDB
        = { status := 400, ok := false, message := some "Unknown metric", metric := none,
            items := none }) ∧
    (∀ user : User,
      computeMetric "honey" user = user.honey ∧
      computeMetric "totalhoney" user = user.stats.totalHoney ∧
      computeMetric "uniquehivees" user = user.collection.countP (fun e => decide (0 < e.2)) ∧
      computeMetric "totalhivees" user = (user.collection.map Prod.snd).sum) := by
  refine ⟨?_, ?_, ?_⟩
  · intro hmem
    have hsorted := rankedBefore_sorted_insertionSort
      (leaderboardItems (asciiLower (metric.getD "")) usersDB)
    have hsplit := List.take_append_drop 10
      ((leaderboardItems (asciiLower (metric.getD "")) usersDB).insertionSort rankedBefore)
    refine ⟨((leaderboardItems (asciiLower (metric.getD "")) usersDB).insertionSort
        rankedBefore).take 10,
      ((leaderboardItems (asciiLower (metric.getD "")) usersDB).insertionSort
        rankedBefore).drop 10, ?_, ?_, ?_, ?_, ?_⟩
    · simp only [apiLeaderboard, hid, if_neg hne, not_not.2 hmem, if_false]
    · simp [leaderboardItems, List.length_insertionSort]
    · exact hsorted.sublist (List.take_sublist _ _)
    · rw [hsplit]
      exact List.perm_insertionSort rankedBefore _
    · intro x hx y hy
      rw [← hsplit] at hsorted
      exact (List.pairwise_append.1 hsorted).2.2 y hy x hx
  · intro hmem
    simp only [apiLeaderboard, hid, if_neg hne, hmem, not_false_eq_true, if_true]
  · intro user
    have h1 : ¬ ("totalhoney" = "honey") := by decide
    have h2 : ¬ ("uniquehivees" = "honey") := by decide
    have h3 : ¬ ("uniquehivees" = "totalhoney") := by decide
    have h4 : ¬ ("totalhivees" = "honey") := by decide
    have h5 : ¬ ("totalhivees" = "totalhoney") := by decide
    have h6 : ¬ ("totalhivees" = "uniquehivees") := by decide
    refine ⟨by simp [computeMetric], by simp [computeMetric, h1], ?_, ?_⟩
    · simp only [computeMetric, if_neg h2, if_neg h3, if_true]
      rw [foldl_count_positive]
      omega
    · simp only [computeMetric, if_neg h4, if_neg h5, if_neg h6]
      rw [foldl_sum_counts]
      omega

/-- Witness of C25: twelve users with different honey and the metric `Honey`:
the ten largest values come back in order, and the two users left out (values 5
and 1) are not above the last returned value 9.  The metric `money` is refused. -/
theorem leaderboard_top_ten_witness :
    (∃ items rest,
      (apiLeaderboard sampleSession (some "Honey") twelveUsers).items = some items ∧
      items.map (fun i => (i.username, i.value))
        = [("fay", 300), ("ivy", 250), ("bob", 120), ("lee", 99), ("dee", 77), ("jon", 61),
           ("gus", 42), ("cyd", 30), ("kim", 18), ("hal", 9)] ∧
      rest.length = 2 ∧ (∀ x ∈ rest, x.value ≤ 9) ∧
      (items ++ rest).Perm (leaderboardItems "honey" twelveUsers)) ∧
    (apiLeaderboard sampleSession (some "money") twelveUsers).status = 400 ∧
    computeMetric "uniquehivees"
      (rankedUser "ada" 5 900 [("queen", 2), ("drone", 0), ("worker", 3)]) = 2 ∧
    computeMetric "totalhivees"
      (rankedUser "ada" 5 900 [("queen", 2), ("drone", 0), ("worker", 3)]) = 5 := by
  have h := leaderboard_top_ten sampleSession (some "Honey") twelveUsers "1" rfl (by decide)
  have h' := leaderboard_top_ten sampleSession (some "money") twelveUsers "1" rfl (by decide)
  obtain ⟨items, rest, hrun, hlen, -, hperm, hrest⟩ := h.1 (by decide)
  have hvals : (apiLeaderboard sampleSession (some "Honey") twelveUsers).items.map
      (fun l => l.map (fun i => (i.username, i.value)))
      = some [("fay", 300), ("ivy", 250), ("bob", 120), ("lee", 99), ("dee", 77), ("jon", 61),
              ("gus", 42), ("cyd", 30), ("kim", 18), ("hal", 9)] := by decide
  rw [hrun] at hvals
  have hitems : items.map (fun i => (i.username, i.value))
      = [("fay", 300), ("ivy", 250), ("bob", 120), ("lee", 99), ("dee", 77), ("jon", 61),
         ("gus", 42), ("cyd", 30), ("kim", 18), ("hal", 9)] := Option.some.inj hvals
  have hlen10 : items.length = 10 := by rw [hlen]; decide
  have hlast : ∃ y ∈ items, y.value = 9 := by
    have hmem : (("hal", 9) : String × Nat) ∈ items.map (fun i => (i.username, i.value)) := by
      rw [hitems]; simp
    obtain ⟨y, hy, hyv⟩ := List.mem_map.1 hmem
    exact ⟨y, hy, (Prod.mk.inj hyv).2⟩
  obtain ⟨y, hy, hy9⟩ := hlast
  refine ⟨⟨items, rest, by rw [hrun], hitems, ?_, ?_, hperm⟩, by rw [h'.2.1 (by decide)], ?_, ?_⟩
  · have hl := hperm.length_eq
    rw [List.length_append, hlen10] at hl
    have h12 : (twelveUsers.users.map (fun e =>
        ({ username := e.2.username
           avatar := if e.2.favCharacImage = "" then "./assets/HiveFest.png"
             else e.2.favCharacImage
           value := computeMetric (asciiLower ((some "Honey" : Option String).getD "")) e.2 } :
          LeaderboardItem))).length = 12 := by
      simp [twelveUsers]
    omega
  · intro x hx
    have := hrest x hx y hy
    omega
  · rw [(h.2.2 _).2.2.1]; decide
  · rw [(h.2.2 _).2.2.2]; decide

/-- C26: a division question generated by signup or by change-question, from
draws in `[0, 1)`, has `n2` in 1..11 and `n1 = k * n2` for some `k` in 1..11;
the client's solution is defined (no division by zero) and is `k`, and
`n2 * k = n1`. -/
theorem division_question_exact (uType uA uB : ℚ) (hA0 : 0 ≤ uA) (hA1 : uA < 1)
    (hB0 : 0 ≤ uB) (hB1 : uB < 1) (q : Question)
    (hq : q = signupQuestion uType uA uB ∨ q = changeQuestion uType uA uB)
    (hdiv : q.type = "division") :
    1 ≤ q.n2 ∧ q.n2 ≤ 11 ∧
    ∃ k, 1 ≤ k ∧ k ≤ 11 ∧ q.n1 = k * q.n2 ∧ clientSolution q = some (k : Int) ∧
      q.n2 * k = q.n1 := by
  have ha := floorRandom_lt uA hA0 hA1 11 (by norm_num)
  have hb := floorRandom_lt uB hB0 hB1 11 (by norm_num)
  have hform : q = { type := "division", n1 := (floorRandom uB 11 + 1) * (floorRandom uA 11 + 1),
                     n2 := floorRandom uA 11 + 1 } := by
    rcases hq with rfl | rfl
    · exact signupQuestion_division uType uA uB hdiv
    · exact changeQuestion_division uType uA uB hdiv
  subst hform
  refine ⟨by simp, by simp only; omega, floorRandom uB 11 + 1, by omega, by omega, rfl,
    clientSolution_division _ _ (by omega), ?_⟩
  simp only
  exact Nat.mul_comm _ _

/-- Witness of C26 at the draws 7/8, 1/4, 1/2: the question 18 : 3 with solution 6. -/
theorem division_question_exact_witness :
    signupQuestion (7 / 8) (1 / 4) (1 / 2) = { type := "division", n1 := 18, n2 := 3 } ∧
    changeQuestion (7 / 8) (1 / 4) (1 / 2) = { type := "division", n1 := 18, n2 := 3 } ∧
    ∃ k, (18 : Nat) = k * 3 ∧
      clientSolution { type := "division", n1 := 18, n2 := 3 } = some (k : Int) := by
  have ht : floorRandom (7 / 8) 4 = 3 :=
    floorRandom_eq (7 / 8) 4 3 (by norm_num) (by norm_num) (by norm_num)
  have ha : floorRandom (1 / 4) 11 = 2 :=
    floorRandom_eq (1 / 4) 11 2 (by norm_num) (by norm_num) (by norm_num)
  have hb : floorRandom (1 / 2) 11 = 5 :=
    floorRandom_eq (1 / 2) 11 5 (by norm_num) (by norm_num) (by norm_num)
  have hs : signupQuestion (7 / 8) (1 / 4) (1 / 2)
      = { type := "division", n1 := 18, n2 := 3 } := by
    simp only [signupQuestion, ht, ha, hb]
    decide
  have hc : changeQuestion (7 / 8) (1 / 4) (1 / 2)
      = { type := "division", n1 := 18, n2 := 3 } := by
    simp only [changeQuestion, ht, ha, hb]
    decide
  obtain ⟨-, -, k, -, -, hk, hsol, -⟩ :=
    division_question_exact (7 / 8) (1 / 4) (1 / 2) (by norm_num) (by norm_num) (by norm_num)
      (by norm_num) { type := "division", n1 := 18, n2 := 3 } (Or.inl hs.symm) rfl
  exact ⟨hs, hc, k, hk, hsol⟩

end HiveFest
